import Mathlib

set_option maxRecDepth 100000

/-
Verification of the maxminddb crate (MMDB binary-format reader).

Shallow embedding conventions:
- Rust byte slices are `List Nat`; a well-formed buffer has all entries < 256
  (stated as a hypothesis where a theorem needs it).
- `usize`/`u8` arithmetic that can overflow is modelled overflow-checked: an
  overflowing operation, like an out-of-bounds index or slice, yields the
  `RRes.panic` result (the behaviour of the profile the crate's tests run
  under; with overflow checks disabled the same inputs reach an out-of-bounds
  slice and still abort, except where a theorem notes otherwise).
- Fallible functions return `RRes`; an `&mut usize` cursor is modelled by
  returning the new cursor alongside the value.
- `f64` values are modelled by their raw IEEE-754 bit pattern (the exact
  argument of f64::from_bits), strings by their raw bytes.
-/

namespace MMDB

/-- Error enum (src/errors.rs). The io::Error payload of `Open` and the
Utf8Error payload of `InvalidUtf8` are dropped; `UnknownField` keeps the
offending key as raw bytes. -/
inductive Error where
  | AddressNotFound
  | InvalidOffset
  | InvalidDataType (code : Nat)
  | InvalidRecordSize (size : Nat)
  | InvalidSearchTreeSize
  | InvalidNode
  | MetadataNotFound
  | CorruptSearchTree
  | UnknownField (name : List Nat)
  | InvalidUtf8
  deriving DecidableEq

/-- Result of a fallible Rust computation: a value, a returned `Error`, or a
panic (out-of-bounds index or overflow-checked arithmetic). -/
inductive RRes (α : Type) where
  | ok (v : α)
  | err (e : Error)
  | panic
  deriving DecidableEq

/-- Type-code constants (src/decode.rs). -/
def DATA_TYPE_EXTENDED : Nat := 0

def DATA_TYPE_POINTER : Nat := 1

def DATA_TYPE_STRING : Nat := 2

def DATA_TYPE_FLOAT64 : Nat := 3

def DATA_TYPE_UINT16 : Nat := 5

def DATA_TYPE_UINT32 : Nat := 6

def DATA_TYPE_MAP : Nat := 7

def DATA_TYPE_INT32 : Nat := 8

def DATA_TYPE_UINT64 : Nat := 9

def DATA_TYPE_UINT128 : Nat := 10

def DATA_TYPE_SLICE : Nat := 11

def DATA_TYPE_BOOL : Nat := 14

/-- One past the largest `usize` value. -/
def USIZE_LIMIT : Nat := 2 ^ 64

/-- read_bytes (src/decode.rs): `new_offset = *offset + size`, error when it
exceeds the buffer, otherwise the subslice plus the advanced cursor. The
computation of `new_offset` can overflow `usize`; that case aborts. -/
def read_bytes (buf : List Nat) (offset size : Nat) : RRes (List Nat × Nat) :=
  if USIZE_LIMIT ≤ offset + size then .panic
  else
    let new_offset := offset + size
    if buf.length < new_offset then .err .InvalidOffset
    else .ok ((buf.drop offset).take size, new_offset)

/-- bytes_to_usize (src/decode.rs): big-endian value of 1..=8 bytes, built by
shift-and-or exactly as the source; any other length gives 0. -/
def bytes_to_usize (buf : List Nat) : Nat :=
  match buf with
  | [b0] => b0
  | [b0, b1] => (b0 <<< 8) ||| b1
  | [b0, b1, b2] => (((b0 <<< 8) ||| b1) <<< 8) ||| b2
  | [b0, b1, b2, b3] => (((((b0 <<< 8) ||| b1) <<< 8) ||| b2) <<< 8) ||| b3
  | [b0, b1, b2, b3, b4] =>
      (((((((b0 <<< 8) ||| b1) <<< 8) ||| b2) <<< 8) ||| b3) <<< 8) ||| b4
  | [b0, b1, b2, b3, b4, b5] =>
      (((((((((b0 <<< 8) ||| b1) <<< 8) ||| b2) <<< 8) ||| b3) <<< 8) ||| b4) <<< 8) ||| b5
  | [b0, b1, b2, b3, b4, b5, b6] =>
      (((((((((((b0 <<< 8) ||| b1) <<< 8) ||| b2) <<< 8) ||| b3) <<< 8) ||| b4) <<< 8) ||| b5)
        <<< 8) ||| b6
  | [b0, b1, b2, b3, b4, b5, b6, b7] =>
      (((((((((((((b0 <<< 8) ||| b1) <<< 8) ||| b2) <<< 8) ||| b3) <<< 8) ||| b4) <<< 8) ||| b5)
        <<< 8) ||| b6) <<< 8) ||| b7
  | _ => 0

/-- bytes_to_usize_with_prefix (src/decode.rs): as `bytes_to_usize` but with a
leading numeric prefix group; length 0 gives the prefix, length > 8 gives 0. -/
def bytes_to_usize_with_prefix (pfx : Nat) (buf : List Nat) : Nat :=
  match buf with
  | [] => pfx
  | [b0] => (pfx <<< 8) ||| b0
  | [b0, b1] => (((pfx <<< 8) ||| b0) <<< 8) ||| b1
  | [b0, b1, b2] => (((((pfx <<< 8) ||| b0) <<< 8) ||| b1) <<< 8) ||| b2
  | [b0, b1, b2, b3] =>
      (((((((pfx <<< 8) ||| b0) <<< 8) ||| b1) <<< 8) ||| b2) <<< 8) ||| b3
  | [b0, b1, b2, b3, b4] =>
      (((((((((pfx <<< 8) ||| b0) <<< 8) ||| b1) <<< 8) ||| b2) <<< 8) ||| b3) <<< 8) ||| b4
  | [b0, b1, b2, b3, b4, b5] =>
      (((((((((((pfx <<< 8) ||| b0) <<< 8) ||| b1) <<< 8) ||| b2) <<< 8) ||| b3) <<< 8) ||| b4)
        <<< 8) ||| b5
  | [b0, b1, b2, b3, b4, b5, b6] =>
      (((((((((((((pfx <<< 8) ||| b0) <<< 8) ||| b1) <<< 8) ||| b2) <<< 8) ||| b3) <<< 8) ||| b4)
        <<< 8) ||| b5) <<< 8) ||| b6
  | [b0, b1, b2, b3, b4, b5, b6, b7] =>
      (((((((((((((((pfx <<< 8) ||| b0) <<< 8) ||| b1) <<< 8) ||| b2) <<< 8) ||| b3) <<< 8)
        ||| b4) <<< 8) ||| b5) <<< 8) ||| b6) <<< 8) ||| b7
  | _ => 0

/-- Tail of read_control (src/decode.rs) after the type code has been
resolved: take the 5-bit size, and when it is 29, 30 or 31 (and the type code
is not EXTENDED, which cannot occur here) read 1, 2 or 3 further bytes
big-endian and add 29, 285 or 65821. -/
def read_control_tail (buf : List Nat) (control_byte data_type offset : Nat) :
    RRes ((Nat × Nat) × Nat) :=
  if data_type = DATA_TYPE_EXTENDED ∨ control_byte % 32 < 29 then
    .ok ((data_type, control_byte % 32), offset)
  else
    match read_bytes buf offset (control_byte % 32 - 28) with
    | .ok (bytes, offset) =>
        .ok ((data_type, bytes_to_usize bytes +
          (match control_byte % 32 - 28 with | 1 => 29 | 2 => 285 | _ => 65821)), offset)
    | .err e => .err e
    | .panic => .panic

/-- read_control (src/decode.rs). The control byte and the extended-type byte
are read with unchecked indexing (`buf[*offset]`), so a cursor at or past the
end of the buffer aborts rather than returning InvalidOffset; the extended
type code `buf[*offset] + 7` is u8 arithmetic, which overflows for byte values
at least 249. -/
def read_control (buf : List Nat) (offset : Nat) : RRes ((Nat × Nat) × Nat) :=
  match buf[offset]? with
  | none => .panic
  | some control_byte =>
    let offset := offset + 1
    let data_type := control_byte >>> 5
    if data_type = DATA_TYPE_EXTENDED then
      match buf[offset]? with
      | none => .panic
      | some b =>
        if b + 7 < 256 then read_control_tail buf control_byte (b + 7) (offset + 1)
        else .panic
    else read_control_tail buf control_byte data_type offset

/-- read_pointer (src/decode.rs): pointer size from bits 3..4 of the size
field, 3-bit prefix from its low bits unless the size is 4, then the
big-endian pointer bytes plus the per-size constant. -/
def read_pointer (buf : List Nat) (offset size : Nat) : RRes (Nat × Nat) :=
  let pointer_size := ((size >>> 3) &&& 0x3) + 1
  let pfx := if pointer_size ≠ 4 then size &&& 0x7 else 0
  match read_bytes buf offset pointer_size with
  | .ok (bytes, offset) =>
      let unpacked := bytes_to_usize_with_prefix pfx bytes
      let pointer_value_offset :=
        match pointer_size with
        | 2 => 2048
        | 3 => 526336
        | _ => 0
      .ok (unpacked + pointer_value_offset, offset)
  | .err e => .err e
  | .panic => .panic

/-- read_str (src/decode.rs): STRING, or one-hop POINTER to STRING. The value
is its raw bytes; the pointee is read through a local cursor and the caller's
cursor stays right after the pointer bytes. -/
def read_str (buf : List Nat) (offset : Nat) : RRes (List Nat × Nat) :=
  match read_control buf offset with
  | .ok ((data_type, size), offset) =>
    if data_type = DATA_TYPE_STRING then read_bytes buf offset size
    else if data_type = DATA_TYPE_POINTER then
      match read_pointer buf offset size with
      | .ok (p, offset) =>
        match read_control buf p with
        | .ok ((data_type2, size2), p) =>
          if data_type2 = DATA_TYPE_STRING then
            match read_bytes buf p size2 with
            | .ok (data, _) => .ok (data, offset)
            | .err e => .err e
            | .panic => .panic
          else .err (.InvalidDataType data_type2)
        | .err e => .err e
        | .panic => .panic
      | .err e => .err e
      | .panic => .panic
    else .err (.InvalidDataType data_type)
  | .err e => .err e
  | .panic => .panic

/-- read_bool (src/decode.rs): BOOL (value carried in the size bits), or
one-hop POINTER to BOOL. -/
def read_bool (buf : List Nat) (offset : Nat) : RRes (Bool × Nat) :=
  match read_control buf offset with
  | .ok ((data_type, size), offset) =>
    if data_type = DATA_TYPE_BOOL then .ok (size != 0, offset)
    else if data_type = DATA_TYPE_POINTER then
      match read_pointer buf offset size with
      | .ok (p, offset) =>
        match read_control buf p with
        | .ok ((data_type2, size2), _) =>
          if data_type2 = DATA_TYPE_BOOL then .ok (size2 != 0, offset)
          else .err (.InvalidDataType data_type2)
        | .err e => .err e
        | .panic => .panic
      | .err e => .err e
      | .panic => .panic
    else .err (.InvalidDataType data_type)
  | .err e => .err e
  | .panic => .panic

/-- read_f64 (src/decode.rs): FLOAT64 (returned as the raw bit pattern handed
to f64::from_bits), or one-hop POINTER to FLOAT64. -/
def read_f64 (buf : List Nat) (offset : Nat) : RRes (Nat × Nat) :=
  match read_control buf offset with
  | .ok ((data_type, size), offset) =>
    if data_type = DATA_TYPE_FLOAT64 then
      match read_bytes buf offset size with
      | .ok (data, offset) => .ok (bytes_to_usize data, offset)
      | .err e => .err e
      | .panic => .panic
    else if data_type = DATA_TYPE_POINTER then
      match read_pointer buf offset size with
      | .ok (p, offset) =>
        match read_control buf p with
        | .ok ((data_type2, size2), p) =>
          if data_type2 = DATA_TYPE_FLOAT64 then
            match read_bytes buf p size2 with
            | .ok (data, _) => .ok (bytes_to_usize data, offset)
            | .err e => .err e
            | .panic => .panic
          else .err (.InvalidDataType data_type2)
        | .err e => .err e
        | .panic => .panic
      | .err e => .err e
      | .panic => .panic
    else .err (.InvalidDataType data_type)
  | .err e => .err e
  | .panic => .panic

/-- The unsigned-integer type codes accepted by read_usize (src/decode.rs). -/
def is_uint_data_type (data_type : Nat) : Bool :=
  data_type == DATA_TYPE_UINT16 || data_type == DATA_TYPE_UINT32 ||
    data_type == DATA_TYPE_INT32 || data_type == DATA_TYPE_UINT64 ||
    data_type == DATA_TYPE_UINT128

/-- read_usize (src/decode.rs): any of the five integer type codes, or a
one-hop POINTER to one of them; value is the big-endian payload. -/
def read_usize (buf : List Nat) (offset : Nat) : RRes (Nat × Nat) :=
  match read_control buf offset with
  | .ok ((data_type, size), offset) =>
    if is_uint_data_type data_type then
      match read_bytes buf offset size with
      | .ok (data, offset) => .ok (bytes_to_usize data, offset)
      | .err e => .err e
      | .panic => .panic
    else if data_type = DATA_TYPE_POINTER then
      match read_pointer buf offset size with
      | .ok (p, offset) =>
        match read_control buf p with
        | .ok ((data_type2, size2), p) =>
          if is_uint_data_type data_type2 then
            match read_bytes buf p size2 with
            | .ok (data, _) => .ok (bytes_to_usize data, offset)
            | .err e => .err e
            | .panic => .panic
          else .err (.InvalidDataType data_type2)
        | .err e => .err e
        | .panic => .panic
      | .err e => .err e
      | .panic => .panic
    else .err (.InvalidDataType data_type)
  | .err e => .err e
  | .panic => .panic

/-- The element loop of read_str_array (src/decode.rs): `size` strings in
sequence, each read with read_str. -/
def read_str_loop (buf : List Nat) : Nat → Nat → List (List Nat) →
    RRes (List (List Nat) × Nat)
  | offset, 0, acc => .ok (acc, offset)
  | offset, n + 1, acc =>
    match read_str buf offset with
    | .ok (s, offset) => read_str_loop buf offset n (acc ++ [s])
    | .err e => .err e
    | .panic => .panic

/-- read_str_array (src/decode.rs): SLICE of strings, or one-hop POINTER to
such a SLICE. -/
def read_str_array (buf : List Nat) (offset : Nat) : RRes (List (List Nat) × Nat) :=
  match read_control buf offset with
  | .ok ((data_type, size), offset) =>
    if data_type = DATA_TYPE_SLICE then read_str_loop buf offset size []
    else if data_type = DATA_TYPE_POINTER then
      match read_pointer buf offset size with
      | .ok (p, offset) =>
        match read_control buf p with
        | .ok ((data_type2, size2), p) =>
          if data_type2 = DATA_TYPE_SLICE then
            match read_str_loop buf p size2 [] with
            | .ok (arr, _) => .ok (arr, offset)
            | .err e => .err e
            | .panic => .panic
          else .err (.InvalidDataType data_type2)
        | .err e => .err e
        | .panic => .panic
      | .err e => .err e
      | .panic => .panic
    else .err (.InvalidDataType data_type)
  | .err e => .err e
  | .panic => .panic

/-- The pair loop of read_map (src/decode.rs): `size` key/value string pairs. -/
def read_map_loop (buf : List Nat) : Nat → Nat → List (List Nat × List Nat) →
    RRes (List (List Nat × List Nat) × Nat)
  | offset, 0, acc => .ok (acc, offset)
  | offset, n + 1, acc =>
    match read_str buf offset with
    | .ok (k, offset) =>
      match read_str buf offset with
      | .ok (v, offset) => read_map_loop buf offset n (acc ++ [(k, v)])
      | .err e => .err e
      | .panic => .panic
    | .err e => .err e
    | .panic => .panic

/-- read_map (src/decode.rs): MAP of string pairs, or one-hop POINTER to such
a MAP. -/
def read_map (buf : List Nat) (offset : Nat) : RRes (List (List Nat × List Nat) × Nat) :=
  match read_control buf offset with
  | .ok ((data_type, size), offset) =>
    if data_type = DATA_TYPE_MAP then read_map_loop buf offset size []
    else if data_type = DATA_TYPE_POINTER then
      match read_pointer buf offset size with
      | .ok (p, offset) =>
        match read_control buf p with
        | .ok ((data_type2, size2), p) =>
          if data_type2 = DATA_TYPE_MAP then
            match read_map_loop buf p size2 [] with
            | .ok (m, _) => .ok (m, offset)
            | .err e => .err e
            | .panic => .panic
          else .err (.InvalidDataType data_type2)
        | .err e => .err e
        | .panic => .panic
      | .err e => .err e
      | .panic => .panic
    else .err (.InvalidDataType data_type)
  | .err e => .err e
  | .panic => .panic

/-- The default body of Decoder::decode (src/decode.rs, trait definition):
MAP, or one-hop POINTER to MAP, then delegate to decode_with_size (`dws`).
In the pointer case the pair count and cursor for dws come from the pointee
while the caller's cursor stays right after the pointer bytes. -/
def decode_default {α : Type} (dws : List Nat → Nat → Nat → RRes (α × Nat))
    (buf : List Nat) (offset : Nat) : RRes (α × Nat) :=
  match read_control buf offset with
  | .ok ((data_type, size), offset) =>
    if data_type = DATA_TYPE_MAP then dws buf offset size
    else if data_type = DATA_TYPE_POINTER then
      match read_pointer buf offset size with
      | .ok (p, offset) =>
        match read_control buf p with
        | .ok ((data_type2, size2), p) =>
          if data_type2 = DATA_TYPE_MAP then
            match dws buf p size2 with
            | .ok (v, _) => .ok (v, offset)
            | .err e => .err e
            | .panic => .panic
          else .err (.InvalidDataType data_type2)
        | .err e => .err e
        | .panic => .panic
      | .err e => .err e
      | .panic => .panic
    else .err (.InvalidDataType data_type)
  | .err e => .err e
  | .panic => .panic

/-- DATA_SECTION_SEPARATOR_SIZE (src/reader.rs). -/
def DATA_SECTION_SEPARATOR_SIZE : Nat := 16

/-- The Reader struct (src/reader.rs): the backing buffer plus the constants
from_bytes derives from the metadata. The unused ip_v4_start_bit_depth field
is omitted. -/
structure Reader where
  data : List Nat
  search_tree_size : Nat
  record_size : Nat
  node_count : Nat
  node_offset_multi : Nat
  ip_v4_start : Nat

/-- read_left (src/reader.rs): the left record of the node starting at byte
`nodes` of the search-tree slice, for record widths 28, 24 and 32; any other
width is unreachable (from_bytes validates it) and panics in the source. -/
def read_left (r : Reader) (buf : List Nat) (nodes : Nat) : Nat :=
  match r.record_size with
  | 28 =>
      ((buf.getD (nodes + 3) 0 &&& 0xF0) <<< 20) ||| (buf.getD nodes 0 <<< 16) |||
        (buf.getD (nodes + 1) 0 <<< 8) ||| buf.getD (nodes + 2) 0
  | 24 =>
      (buf.getD nodes 0 <<< 16) ||| (buf.getD (nodes + 1) 0 <<< 8) ||| buf.getD (nodes + 2) 0
  | 32 =>
      (buf.getD nodes 0 <<< 24) ||| (buf.getD (nodes + 1) 0 <<< 16) |||
        (buf.getD (nodes + 2) 0 <<< 8) ||| buf.getD (nodes + 3) 0
  | _ => 0

/-- read_right (src/reader.rs): the right record of the node starting at byte
`nodes`. -/
def read_right (r : Reader) (buf : List Nat) (nodes : Nat) : Nat :=
  match r.record_size with
  | 28 =>
      ((buf.getD (nodes + 3) 0 &&& 0x0F) <<< 24) ||| (buf.getD (nodes + 4) 0 <<< 16) |||
        (buf.getD (nodes + 5) 0 <<< 8) ||| buf.getD (nodes + 6) 0
  | 24 =>
      (buf.getD (nodes + 3) 0 <<< 16) ||| (buf.getD (nodes + 4) 0 <<< 8) |||
        buf.getD (nodes + 5) 0
  | 32 =>
      (buf.getD (nodes + 4) 0 <<< 24) ||| (buf.getD (nodes + 5) 0 <<< 16) |||
        (buf.getD (nodes + 6) 0 <<< 8) ||| buf.getD (nodes + 7) 0
  | _ => 0

/-- The search-tree slice `&data[..search_tree_size]` used by the walker. -/
def tree_buf (r : Reader) : List Nat := r.data.take r.search_tree_size

/-- Bit i of the address octets, big-endian within each byte:
`1 & (ip[i >> 3] >> (7 - i % 8))` (src/reader.rs). The index `i >> 3` is
always in range for `i < 8 * ip.length`. -/
def address_bit (ip : List Nat) (i : Nat) : Nat :=
  1 &&& (ip.getD (i >>> 3) 0 >>> (7 - i % 8))

/-- One iteration of the walk loop of find_address_in_tree (src/reader.rs):
the source breaks out as soon as `node >= node_count` and otherwise follows
the child selected by bit i; since the break is permanent, the loop equals
this absorbing step folded over all bit indices. -/
def step_node (r : Reader) (ip : List Nat) (node i : Nat) : Nat :=
  if r.node_count ≤ node then node
  else if address_bit ip i = 0 then read_left r (tree_buf r) (node * r.node_offset_multi)
  else read_right r (tree_buf r) (node * r.node_offset_multi)

/-- The node at which the walk loop of find_address_in_tree stops: start at 0
for a 16-byte address and at ip_v4_start otherwise, then fold the step over
bit indices 0 .. 8*len-1. -/
def walk_node (r : Reader) (ip : List Nat) : Nat :=
  let bit_count := ip.length * 8
  let start := if bit_count = 128 then 0 else r.ip_v4_start
  (List.range bit_count).foldl (step_node r ip) start

/-- find_address_in_tree (src/reader.rs): slice the search tree (aborting
when search_tree_size exceeds the buffer, as the source slice would), walk the
address bits, then map the final node through the terminal match. -/
def find_address_in_tree (r : Reader) (ip : List Nat) : RRes Nat :=
  if r.data.length < r.search_tree_size then .panic
  else
    let node := walk_node r ip
    if node = r.node_count then .ok 0
    else if r.node_count < node then .ok node
    else .err .InvalidNode

/-- Checked usize subtraction: underflow aborts (overflow-checked build). -/
def checked_sub (a b : Nat) : RRes Nat :=
  if b ≤ a then .ok (a - b) else .panic

/-- Drops the final cursor of a decoder result, as lookup does with the local
`offset` it hands to T::decode. -/
def discard_offset {α : Type} : RRes (α × Nat) → RRes α
  | .ok (v, _) => .ok v
  | .err e => .err e
  | .panic => .panic

/-- lookup (src/reader.rs), generic over the record decoder `dec` (the
`T::decode` method): walk the tree; 0 means AddressNotFound; otherwise
subtract node_count + 16 (checked: values below node_count + 16 underflow),
compare the offset against the length of the whole backing buffer, and decode
at that offset of the slice `&data[search_tree_size + 16 ..]` (whose creation
aborts if search_tree_size + 16 exceeds the buffer). -/
def lookup {α : Type} (dec : List Nat → Nat → RRes (α × Nat)) (r : Reader)
    (ip : List Nat) : RRes α :=
  match find_address_in_tree r ip with
  | .ok pointer =>
    if pointer = 0 then .err .AddressNotFound
    else
      match checked_sub pointer r.node_count with
      | .ok v =>
        match checked_sub v DATA_SECTION_SEPARATOR_SIZE with
        | .ok offset =>
          if r.data.length ≤ offset then .err .CorruptSearchTree
          else if r.data.length < r.search_tree_size + DATA_SECTION_SEPARATOR_SIZE then .panic
          else discard_offset (dec (r.data.drop (r.search_tree_size + DATA_SECTION_SEPARATOR_SIZE)) offset)
        | .err e => .err e
        | .panic => .panic
      | .err e => .err e
      | .panic => .panic
  | .err e => .err e
  | .panic => .panic

/-- The ip_v4_start computation of from_bytes (src/reader.rs): descend the
left child up to 96 times from the root, stopping when `node >= node_count`;
the while loop's early exit equals an absorbing guarded fold. -/
def compute_ip_v4_start (r : Reader) : Nat :=
  (List.range 96).foldl
    (fun node _ =>
      if node < r.node_count then read_left r (tree_buf r) (node * r.node_offset_multi)
      else node)
    0

/-- METADATA_START_MARKER (src/metadata.rs): 0xAB 0xCD 0xEF "MaxMind.com". -/
def METADATA_START_MARKER : List Nat :=
  [171, 205, 239, 77, 97, 120, 77, 105, 110, 100, 46, 99, 111, 109]

/-- The scan loop of find_metadata_start (src/metadata.rs): with current
position p + 1, decrement to p first, then compare the 14-byte window at p;
position 0 ends the loop with MetadataNotFound. -/
def find_metadata_loop (buf : List Nat) : Nat → RRes Nat
  | 0 => .err .MetadataNotFound
  | p + 1 =>
    if (buf.drop p).take 14 = METADATA_START_MARKER then .ok (p + 14)
    else find_metadata_loop buf p

/-- find_metadata_start (src/metadata.rs): start the scan position at
`buf.len() - 14`, which underflows (aborts) for buffers shorter than the
marker. Because the position is decremented before each comparison, the first
window compared starts at `buf.len() - 15`. -/
def find_metadata_start (buf : List Nat) : RRes Nat :=
  if buf.length < 14 then .panic
  else find_metadata_loop buf (buf.length - 14)

/-- Field-name byte strings used by the record dispatch loops (ASCII). -/
def KEY_is_anonymous : List Nat := [105, 115, 95, 97, 110, 111, 110, 121, 109, 111, 117, 115]

def KEY_is_anonymous_vpn : List Nat :=
  [105, 115, 95, 97, 110, 111, 110, 121, 109, 111, 117, 115, 95, 118, 112, 110]

def KEY_is_hosting_provider : List Nat :=
  [105, 115, 95, 104, 111, 115, 116, 105, 110, 103, 95, 112, 114, 111, 118, 105, 100, 101, 114]

def KEY_is_public_proxy : List Nat :=
  [105, 115, 95, 112, 117, 98, 108, 105, 99, 95, 112, 114, 111, 120, 121]

def KEY_is_residential_proxy : List Nat :=
  [105, 115, 95, 114, 101, 115, 105, 100, 101, 110, 116, 105, 97, 108, 95, 112, 114, 111, 120, 121]

def KEY_is_tor_exit_node : List Nat :=
  [105, 115, 95, 116, 111, 114, 95, 101, 120, 105, 116, 95, 110, 111, 100, 101]

def KEY_continent : List Nat := [99, 111, 110, 116, 105, 110, 101, 110, 116]

def KEY_country : List Nat := [99, 111, 117, 110, 116, 114, 121]

def KEY_registered_country : List Nat :=
  [114, 101, 103, 105, 115, 116, 101, 114, 101, 100, 95, 99, 111, 117, 110, 116, 114, 121]

def KEY_represented_country : List Nat :=
  [114, 101, 112, 114, 101, 115, 101, 110, 116, 101, 100, 95, 99, 111, 117, 110, 116, 114, 121]

def KEY_traits : List Nat := [116, 114, 97, 105, 116, 115]

def KEY_geoname_id : List Nat := [103, 101, 111, 110, 97, 109, 101, 95, 105, 100]

def KEY_names : List Nat := [110, 97, 109, 101, 115]

def KEY_code : List Nat := [99, 111, 100, 101]

def KEY_is_in_european_union : List Nat :=
  [105, 115, 95, 105, 110, 95, 101, 117, 114, 111, 112, 101, 97, 110, 95, 117, 110, 105, 111, 110]

def KEY_iso_code : List Nat := [105, 115, 111, 95, 99, 111, 100, 101]

def KEY_type : List Nat := [116, 121, 112, 101]

def KEY_is_anonymous_proxy : List Nat :=
  [105, 115, 95, 97, 110, 111, 110, 121, 109, 111, 117, 115, 95, 112, 114, 111, 120, 121]

def KEY_is_anycast : List Nat := [105, 115, 95, 97, 110, 121, 99, 97, 115, 116]

def KEY_is_satellite_provider : List Nat :=
  [105, 115, 95, 115, 97, 116, 101, 108, 108, 105, 116, 101, 95, 112, 114, 111, 118, 105, 100,
    101, 114]

def KEY_binary_format_major_version : List Nat :=
  [98, 105, 110, 97, 114, 121, 95, 102, 111, 114, 109, 97, 116, 95, 109, 97, 106, 111, 114, 95,
    118, 101, 114, 115, 105, 111, 110]

def KEY_binary_format_minor_version : List Nat :=
  [98, 105, 110, 97, 114, 121, 95, 102, 111, 114, 109, 97, 116, 95, 109, 105, 110, 111, 114, 95,
    118, 101, 114, 115, 105, 111, 110]

def KEY_node_count : List Nat := [110, 111, 100, 101, 95, 99, 111, 117, 110, 116]

def KEY_record_size : List Nat := [114, 101, 99, 111, 114, 100, 95, 115, 105, 122, 101]

def KEY_ip_version : List Nat := [105, 112, 95, 118, 101, 114, 115, 105, 111, 110]

def KEY_database_type : List Nat := [100, 97, 116, 97, 98, 97, 115, 101, 95, 116, 121, 112, 101]

def KEY_languages : List Nat := [108, 97, 110, 103, 117, 97, 103, 101, 115]

def KEY_build_epoch : List Nat := [98, 117, 105, 108, 100, 95, 101, 112, 111, 99, 104]

def KEY_description : List Nat := [100, 101, 115, 99, 114, 105, 112, 116, 105, 111, 110]

namespace models

/-- models::City (src/models.rs). -/
structure City where
  geoname_id : Option Nat
  names : Option (List (List Nat × List Nat))
  deriving DecidableEq

/-- Dispatch loop of models::City::decode_with_size (src/models.rs);
`as u32` narrows modulo 2^32. -/
def City.decode_loop (buf : List Nat) : Nat → Nat → City → RRes (City × Nat)
  | offset, 0, acc => .ok (acc, offset)
  | offset, n + 1, acc =>
    match read_str buf offset with
    | .ok (key, offset) =>
      if key = KEY_geoname_id then
        match read_usize buf offset with
        | .ok (v, offset) => City.decode_loop buf offset n { acc with geoname_id := some (v % 2 ^ 32) }
        | .err e => .err e
        | .panic => .panic
      else if key = KEY_names then
        match read_map buf offset with
        | .ok (m, offset) => City.decode_loop buf offset n { acc with names := some m }
        | .err e => .err e
        | .panic => .panic
      else .err (.UnknownField key)
    | .err e => .err e
    | .panic => .panic

/-- models::City::decode_with_size (src/models.rs). -/
def City.decode_with_size (buf : List Nat) (offset size : Nat) : RRes (City × Nat) :=
  City.decode_loop buf offset size { geoname_id := none, names := none }

/-- models::City inherits the default Decoder::decode (no override in
src/models.rs). -/
def City.decode (buf : List Nat) (offset : Nat) : RRes (City × Nat) :=
  decode_default City.decode_with_size buf offset

/-- models::Continent (src/models.rs). -/
structure Continent where
  geoname_id : Option Nat
  code : Option (List Nat)
  names : Option (List (List Nat × List Nat))
  deriving DecidableEq

/-- Dispatch loop of models::Continent::decode_with_size (src/models.rs). -/
def Continent.decode_loop (buf : List Nat) : Nat → Nat → Continent → RRes (Continent × Nat)
  | offset, 0, acc => .ok (acc, offset)
  | offset, n + 1, acc =>
    match read_str buf offset with
    | .ok (key, offset) =>
      if key = KEY_geoname_id then
        match read_usize buf offset with
        | .ok (v, offset) =>
            Continent.decode_loop buf offset n { acc with geoname_id := some (v % 2 ^ 32) }
        | .err e => .err e
        | .panic => .panic
      else if key = KEY_code then
        match read_str buf offset with
        | .ok (s, offset) => Continent.decode_loop buf offset n { acc with code := some s }
        | .err e => .err e
        | .panic => .panic
      else if key = KEY_names then
        match read_map buf offset with
        | .ok (m, offset) => Continent.decode_loop buf offset n { acc with names := some m }
        | .err e => .err e
        | .panic => .panic
      else .err (.UnknownField key)
    | .err e => .err e
    | .panic => .panic

/-- models::Continent::decode_with_size (src/models.rs). -/
def Continent.decode_with_size (buf : List Nat) (offset size : Nat) : RRes (Continent × Nat) :=
  Continent.decode_loop buf offset size { geoname_id := none, code := none, names := none }

/-- models::Continent inherits the default Decoder::decode. -/
def Continent.decode (buf : List Nat) (offset : Nat) : RRes (Continent × Nat) :=
  decode_default Continent.decode_with_size buf offset

/-- models::Country (src/models.rs). -/
structure Country where
  geoname_id : Option Nat
  is_in_european_union : Option Bool
  iso_code : Option (List Nat)
  names : Option (List (List Nat × List Nat))
  deriving DecidableEq

/-- Dispatch loop of models::Country::decode_with_size (src/models.rs). -/
def Country.decode_loop (buf : List Nat) : Nat → Nat → Country → RRes (Country × Nat)
  | offset, 0, acc => .ok (acc, offset)
  | offset, n + 1, acc =>
    match read_str buf offset with
    | .ok (key, offset) =>
      if key = KEY_geoname_id then
        match read_usize buf offset with
        | .ok (v, offset) =>
            Country.decode_loop buf offset n { acc with geoname_id := some (v % 2 ^ 32) }
        | .err e => .err e
        | .panic => .panic
      else if key = KEY_is_in_european_union then
        match read_bool buf offset with
        | .ok (b, offset) =>
            Country.decode_loop buf offset n { acc with is_in_european_union := some b }
        | .err e => .err e
        | .panic => .panic
      else if key = KEY_iso_code then
        match read_str buf offset with
        | .ok (s, offset) => Country.decode_loop buf offset n { acc with iso_code := some s }
        | .err e => .err e
        | .panic => .panic
      else if key = KEY_names then
        match read_map buf offset with
        | .ok (m, offset) => Country.decode_loop buf offset n { acc with names := some m }
        | .err e => .err e
        | .panic => .panic
      else .err (.UnknownField key)
    | .err e => .err e
    | .panic => .panic

/-- models::Country::decode_with_size (src/models.rs). -/
def Country.decode_with_size (buf : List Nat) (offset size : Nat) : RRes (Country × Nat) :=
  Country.decode_loop buf offset size
    { geoname_id := none, is_in_european_union := none, iso_code := none, names := none }

/-- models::Country inherits the default Decoder::decode. -/
def Country.decode (buf : List Nat) (offset : Nat) : RRes (Country × Nat) :=
  decode_default Country.decode_with_size buf offset

/-- models::RepresentedCountry (src/models.rs); the `"type"` key feeds
representation_type. -/
structure RepresentedCountry where
  geoname_id : Option Nat
  is_in_european_union : Option Bool
  iso_code : Option (List Nat)
  names : Option (List (List Nat × List Nat))
  representation_type : Option (List Nat)
  deriving DecidableEq

/-- Dispatch loop of models::RepresentedCountry::decode_with_size
(src/models.rs). -/
def RepresentedCountry.decode_loop (buf : List Nat) :
    Nat → Nat → RepresentedCountry → RRes (RepresentedCountry × Nat)
  | offset, 0, acc => .ok (acc, offset)
  | offset, n + 1, acc =>
    match read_str buf offset with
    | .ok (key, offset) =>
      if key = KEY_geoname_id then
        match read_usize buf offset with
        | .ok (v, offset) =>
            RepresentedCountry.decode_loop buf offset n { acc with geoname_id := some (v % 2 ^ 32) }
        | .err e => .err e
        | .panic => .panic
      else if key = KEY_is_in_european_union then
        match read_bool buf offset with
        | .ok (b, offset) =>
            RepresentedCountry.decode_loop buf offset n { acc with is_in_european_union := some b }
        | .err e => .err e
        | .panic => .panic
      else if key = KEY_iso_code then
        match read_str buf offset with
        | .ok (s, offset) =>
            RepresentedCountry.decode_loop buf offset n { acc with iso_code := some s }
        | .err e => .err e
        | .panic => .panic
      else if key = KEY_names then
        match read_map buf offset with
        | .ok (m, offset) =>
            RepresentedCountry.decode_loop buf offset n { acc with names := some m }
        | .err e => .err e
        | .panic => .panic
      else if key = KEY_type then
        match read_str buf offset with
        | .ok (s, offset) =>
            RepresentedCountry.decode_loop buf offset n { acc with representation_type := some s }
        | .err e => .err e
        | .panic => .panic
      else .err (.UnknownField key)
    | .err e => .err e
    | .panic => .panic

/-- models::RepresentedCountry::decode_with_size (src/models.rs). -/
def RepresentedCountry.decode_with_size (buf : List Nat) (offset size : Nat) :
    RRes (RepresentedCountry × Nat) :=
  RepresentedCountry.decode_loop buf offset size
    { geoname_id := none, is_in_european_union := none, iso_code := none, names := none,
      representation_type := none }

/-- models::RepresentedCountry inherits the default Decoder::decode. -/
def RepresentedCountry.decode (buf : List Nat) (offset : Nat) :
    RRes (RepresentedCountry × Nat) :=
  decode_default RepresentedCountry.decode_with_size buf offset

/-- models::Traits (src/models.rs). -/
structure Traits where
  is_anonymous_proxy : Option Bool
  is_anycast : Option Bool
  is_satellite_provider : Option Bool
  deriving DecidableEq

/-- Dispatch loop of models::Traits::decode_with_size (src/models.rs). -/
def Traits.decode_loop (buf : List Nat) : Nat → Nat → Traits → RRes (Traits × Nat)
  | offset, 0, acc => .ok (acc, offset)
  | offset, n + 1, acc =>
    match read_str buf offset with
    | .ok (key, offset) =>
      if key = KEY_is_anonymous_proxy then
        match read_bool buf offset with
        | .ok (b, offset) =>
            Traits.decode_loop buf offset n { acc with is_anonymous_proxy := some b }
        | .err e => .err e
        | .panic => .panic
      else if key = KEY_is_anycast then
        match read_bool buf offset with
        | .ok (b, offset) => Traits.decode_loop buf offset n { acc with is_anycast := some b }
        | .err e => .err e
        | .panic => .panic
      else if key = KEY_is_satellite_provider then
        match read_bool buf offset with
        | .ok (b, offset) =>
            Traits.decode_loop buf offset n { acc with is_satellite_provider := some b }
        | .err e => .err e
        | .panic => .panic
      else .err (.UnknownField key)
    | .err e => .err e
    | .panic => .panic

/-- models::Traits::decode_with_size (src/models.rs). -/
def Traits.decode_with_size (buf : List Nat) (offset size : Nat) : RRes (Traits × Nat) :=
  Traits.decode_loop buf offset size
    { is_anonymous_proxy := none, is_anycast := none, is_satellite_provider := none }

/-- models::Traits inherits the default Decoder::decode. -/
def Traits.decode (buf : List Nat) (offset : Nat) : RRes (Traits × Nat) :=
  decode_default Traits.decode_with_size buf offset

end models

/-- Reader-level AnonymousIp record (src/reader.rs). -/
structure AnonymousIp where
  is_anonymous : Option Bool
  is_anonymous_vpn : Option Bool
  is_hosting_provider : Option Bool
  is_public_proxy : Option Bool
  is_residential_proxy : Option Bool
  is_tor_exit_node : Option Bool
  deriving DecidableEq

/-- Dispatch loop of AnonymousIp::decode_with_size (src/reader.rs). -/
def AnonymousIp.decode_loop (buf : List Nat) : Nat → Nat → AnonymousIp →
    RRes (AnonymousIp × Nat)
  | offset, 0, acc => .ok (acc, offset)
  | offset, n + 1, acc =>
    match read_str buf offset with
    | .ok (key, offset) =>
      if key = KEY_is_anonymous then
        match read_bool buf offset with
        | .ok (b, offset) => AnonymousIp.decode_loop buf offset n { acc with is_anonymous := some b }
        | .err e => .err e
        | .panic => .panic
      else if key = KEY_is_anonymous_vpn then
        match read_bool buf offset with
        | .ok (b, offset) =>
            AnonymousIp.decode_loop buf offset n { acc with is_anonymous_vpn := some b }
        | .err e => .err e
        | .panic => .panic
      else if key = KEY_is_hosting_provider then
        match read_bool buf offset with
        | .ok (b, offset) =>
            AnonymousIp.decode_loop buf offset n { acc with is_hosting_provider := some b }
        | .err e => .err e
        | .panic => .panic
      else if key = KEY_is_public_proxy then
        match read_bool buf offset with
        | .ok (b, offset) =>
            AnonymousIp.decode_loop buf offset n { acc with is_public_proxy := some b }
        | .err e => .err e
        | .panic => .panic
      else if key = KEY_is_residential_proxy then
        match read_bool buf offset with
        | .ok (b, offset) =>
            AnonymousIp.decode_loop buf offset n { acc with is_residential_proxy := some b }
        | .err e => .err e
        | .panic => .panic
      else if key = KEY_is_tor_exit_node then
        match read_bool buf offset with
        | .ok (b, offset) =>
            AnonymousIp.decode_loop buf offset n { acc with is_tor_exit_node := some b }
        | .err e => .err e
        | .panic => .panic
      else .err (.UnknownField key)
    | .err e => .err e
    | .panic => .panic

/-- AnonymousIp::decode_with_size (src/reader.rs). -/
def AnonymousIp.decode_with_size (buf : List Nat) (offset size : Nat) :
    RRes (AnonymousIp × Nat) :=
  AnonymousIp.decode_loop buf offset size
    { is_anonymous := none, is_anonymous_vpn := none, is_hosting_provider := none,
      is_public_proxy := none, is_residential_proxy := none, is_tor_exit_node := none }

/-- AnonymousIp::decode (src/reader.rs): the impl OVERRIDES the trait default
and accepts only a MAP tag, returning InvalidDataType for anything else,
including a POINTER. -/
def AnonymousIp.decode (buf : List Nat) (offset : Nat) : RRes (AnonymousIp × Nat) :=
  match read_control buf offset with
  | .ok ((data_type, size), offset) =>
    if data_type ≠ DATA_TYPE_MAP then .err (.InvalidDataType data_type)
    else AnonymousIp.decode_with_size buf offset size
  | .err e => .err e
  | .panic => .panic

/-- Reader-level Country record (src/reader.rs). -/
structure Country where
  continent : Option models.Continent
  country : Option models.Country
  registered_country : Option models.Country
  represented_country : Option models.RepresentedCountry
  traits : Option models.Traits
  deriving DecidableEq

/-- Dispatch loop of Country::decode_with_size (src/reader.rs); each field is
decoded by the corresponding models decoder. -/
def Country.decode_loop (buf : List Nat) : Nat → Nat → Country → RRes (Country × Nat)
  | offset, 0, acc => .ok (acc, offset)
  | offset, n + 1, acc =>
    match read_str buf offset with
    | .ok (key, offset) =>
      if key = KEY_continent then
        match models.Continent.decode buf offset with
        | .ok (v, offset) => Country.decode_loop buf offset n { acc with continent := some v }
        | .err e => .err e
        | .panic => .panic
      else if key = KEY_country then
        match models.Country.decode buf offset with
        | .ok (v, offset) => Country.decode_loop buf offset n { acc with country := some v }
        | .err e => .err e
        | .panic => .panic
      else if key = KEY_registered_country then
        match models.Country.decode buf offset with
        | .ok (v, offset) =>
            Country.decode_loop buf offset n { acc with registered_country := some v }
        | .err e => .err e
        | .panic => .panic
      else if key = KEY_represented_country then
        match models.RepresentedCountry.decode buf offset with
        | .ok (v, offset) =>
            Country.decode_loop buf offset n { acc with represented_country := some v }
        | .err e => .err e
        | .panic => .panic
      else if key = KEY_traits then
        match models.Traits.decode buf offset with
        | .ok (v, offset) => Country.decode_loop buf offset n { acc with traits := some v }
        | .err e => .err e
        | .panic => .panic
      else .err (.UnknownField key)
    | .err e => .err e
    | .panic => .panic

/-- Country::decode_with_size (src/reader.rs). -/
def Country.decode_with_size (buf : List Nat) (offset size : Nat) : RRes (Country × Nat) :=
  Country.decode_loop buf offset size
    { continent := none, country := none, registered_country := none,
      represented_country := none, traits := none }

/-- Country::decode (src/reader.rs, lines 260-267): the impl OVERRIDES the
trait default and accepts only a MAP tag, returning InvalidDataType for
anything else, including a POINTER. -/
def Country.decode (buf : List Nat) (offset : Nat) : RRes (Country × Nat) :=
  match read_control buf offset with
  | .ok ((data_type, size), offset) =>
    if data_type ≠ DATA_TYPE_MAP then .err (.InvalidDataType data_type)
    else Country.decode_with_size buf offset size
  | .err e => .err e
  | .panic => .panic

/-- Metadata struct (src/metadata.rs); numeric fields carry the narrowing of
the source's `as` casts, strings are raw bytes. -/
structure Metadata where
  binary_format_major_version : Nat
  binary_format_minor_version : Nat
  node_count : Nat
  record_size : Nat
  ip_version : Nat
  database_type : List Nat
  languages : List (List Nat)
  build_epoch : Nat
  description : List (List Nat × List Nat)
  deriving DecidableEq

/-- Metadata::default() (src/metadata.rs): all fields zero or empty. -/
def Metadata.default : Metadata :=
  { binary_format_major_version := 0, binary_format_minor_version := 0, node_count := 0,
    record_size := 0, ip_version := 0, database_type := [], languages := [],
    build_epoch := 0, description := [] }

/-- Dispatch loop of Metadata::from_bytes (src/metadata.rs). -/
def Metadata.decode_loop (buf : List Nat) : Nat → Nat → Metadata → RRes (Metadata × Nat)
  | offset, 0, acc => .ok (acc, offset)
  | offset, n + 1, acc =>
    match read_str buf offset with
    | .ok (key, offset) =>
      if key = KEY_binary_format_major_version then
        match read_usize buf offset with
        | .ok (v, offset) =>
            Metadata.decode_loop buf offset n { acc with binary_format_major_version := v % 2 ^ 16 }
        | .err e => .err e
        | .panic => .panic
      else if key = KEY_binary_format_minor_version then
        match read_usize buf offset with
        | .ok (v, offset) =>
            Metadata.decode_loop buf offset n { acc with binary_format_minor_version := v % 2 ^ 16 }
        | .err e => .err e
        | .panic => .panic
      else if key = KEY_node_count then
        match read_usize buf offset with
        | .ok (v, offset) => Metadata.decode_loop buf offset n { acc with node_count := v }
        | .err e => .err e
        | .panic => .panic
      else if key = KEY_record_size then
        match read_usize buf offset with
        | .ok (v, offset) => Metadata.decode_loop buf offset n { acc with record_size := v }
        | .err e => .err e
        | .panic => .panic
      else if key = KEY_ip_version then
        match read_usize buf offset with
        | .ok (v, offset) => Metadata.decode_loop buf offset n { acc with ip_version := v % 2 ^ 16 }
        | .err e => .err e
        | .panic => .panic
      else if key = KEY_database_type then
        match read_str buf offset with
        | .ok (s, offset) => Metadata.decode_loop buf offset n { acc with database_type := s }
        | .err e => .err e
        | .panic => .panic
      else if key = KEY_languages then
        match read_str_array buf offset with
        | .ok (a, offset) => Metadata.decode_loop buf offset n { acc with languages := a }
        | .err e => .err e
        | .panic => .panic
      else if key = KEY_build_epoch then
        match read_usize buf offset with
        | .ok (v, offset) => Metadata.decode_loop buf offset n { acc with build_epoch := v % 2 ^ 64 }
        | .err e => .err e
        | .panic => .panic
      else if key = KEY_description then
        match read_map buf offset with
        | .ok (m, offset) => Metadata.decode_loop buf offset n { acc with description := m }
        | .err e => .err e
        | .panic => .panic
      else .err (.UnknownField key)
    | .err e => .err e
    | .panic => .panic

/-- Metadata::from_bytes (src/metadata.rs): read the control header at offset
0, IGNORE the returned data type entirely (the source binds it to
`_data_type`), and run the dispatch loop `size` times. -/
def Metadata.from_bytes (buf : List Nat) : RRes Metadata :=
  match read_control buf 0 with
  | .ok ((_, size), offset) => discard_offset (Metadata.decode_loop buf offset size Metadata.default)
  | .err e => .err e
  | .panic => .panic

/-! Helper lemmas. -/

theorem USIZE_LIMIT_eq : USIZE_LIMIT = 18446744073709551616 := by norm_num [USIZE_LIMIT]

/-- Big-endian byte composition: shifting left by a byte and or-ing in a value
below 256 is multiplication plus addition. -/
theorem lor_byte (x b : Nat) (hb : b < 256) : (x <<< 8) ||| b = x * 256 + b := by
  have h : (2 : Nat) ^ 8 * x + b = 2 ^ 8 * x ||| b :=
    Nat.mul_add_lt_is_or (by simpa using hb) x
  calc (x <<< 8) ||| b = 2 ^ 8 * x ||| b := by rw [Nat.shiftLeft_eq, Nat.mul_comm]
    _ = 2 ^ 8 * x + b := h.symm
    _ = x * 256 + b := by ring

theorem read_bytes_eq_ok (buf : List Nat) (offset size : Nat)
    (h : offset + size ≤ buf.length) (hlim : buf.length < USIZE_LIMIT) :
    read_bytes buf offset size = .ok ((buf.drop offset).take size, offset + size) := by
  unfold read_bytes
  rw [if_neg (by omega), if_neg (by omega)]

theorem read_bytes_eq_err (buf : List Nat) (offset size : Nat)
    (h : buf.length < offset + size) (hlim : offset + size < USIZE_LIMIT) :
    read_bytes buf offset size = .err .InvalidOffset := by
  unfold read_bytes
  rw [if_neg (by omega), if_pos (by omega)]

theorem read_bytes_ok_inv {buf : List Nat} {offset size : Nat} {bs : List Nat} {off2 : Nat}
    (h : read_bytes buf offset size = .ok (bs, off2)) :
    bs = (buf.drop offset).take size ∧ off2 = offset + size ∧ offset + size ≤ buf.length := by
  unfold read_bytes at h
  by_cases h1 : USIZE_LIMIT ≤ offset + size
  · rw [if_pos h1] at h
    exact absurd h (by simp)
  · rw [if_neg h1] at h
    dsimp only at h
    by_cases h2 : buf.length < offset + size
    · rw [if_pos h2] at h
      exact absurd h (by simp)
    · rw [if_neg h2] at h
      simp only [RRes.ok.injEq, Prod.mk.injEq] at h
      exact ⟨h.1.symm, h.2.symm, by omega⟩

theorem drop_take_succ (buf : List Nat) (n k : Nat) (h : n < buf.length) :
    (buf.drop n).take (k + 1) = buf.getD n 0 :: (buf.drop (n + 1)).take k := by
  rw [List.drop_eq_getElem_cons h, List.take_succ_cons]
  congr 1
  rw [List.getD_eq_getElem?_getD, List.getElem?_eq_getElem h]
  rfl

theorem getD_lt_of_all_lt {buf : List Nat} (hb : ∀ x ∈ buf, x < 256) {n : Nat}
    (h : n < buf.length) : buf.getD n 0 < 256 := by
  rw [List.getD_eq_getElem?_getD, List.getElem?_eq_getElem h]
  exact hb _ (List.getElem_mem h)

theorem read_control_tail_small {buf : List Nat} {cb dt offset : Nat} (hsz : cb % 32 < 29) :
    read_control_tail buf cb dt offset = .ok ((dt, cb % 32), offset) := by
  unfold read_control_tail
  rw [if_pos (Or.inr hsz)]

/-- Tail behaviour for size bits 29: one extension byte, base 29. -/
theorem read_control_tail_ext1 {buf : List Nat} {cb dt offset : Nat} (hdt : dt ≠ 0)
    (hsz : cb % 32 = 29) (h : offset + 1 ≤ buf.length) (hlim : buf.length < USIZE_LIMIT) :
    read_control_tail buf cb dt offset = .ok ((dt, buf.getD offset 0 + 29), offset + 1) := by
  unfold read_control_tail
  rw [hsz]
  rw [if_neg (by simp only [DATA_TYPE_EXTENDED]; omega)]
  rw [show (29 : Nat) - 28 = 1 by norm_num]
  rw [read_bytes_eq_ok buf offset 1 (by omega) hlim]
  rw [drop_take_succ buf offset 0 (by omega), List.take_zero]
  rfl

/-- Tail behaviour for size bits 30: two extension bytes, base 285. -/
theorem read_control_tail_ext2 {buf : List Nat} {cb dt offset : Nat} (hdt : dt ≠ 0)
    (hsz : cb % 32 = 30) (h : offset + 2 ≤ buf.length) (hlim : buf.length < USIZE_LIMIT)
    (hb : ∀ x ∈ buf, x < 256) :
    read_control_tail buf cb dt offset =
      .ok ((dt, buf.getD offset 0 * 256 + buf.getD (offset + 1) 0 + 285), offset + 2) := by
  unfold read_control_tail
  rw [hsz]
  rw [if_neg (by simp only [DATA_TYPE_EXTENDED]; omega)]
  rw [show (30 : Nat) - 28 = 2 by norm_num]
  rw [read_bytes_eq_ok buf offset 2 (by omega) hlim]
  rw [drop_take_succ buf offset 1 (by omega), drop_take_succ buf (offset + 1) 0 (by omega),
    List.take_zero]
  dsimp only [bytes_to_usize]
  rw [lor_byte _ _ (getD_lt_of_all_lt hb (by omega))]

/-- Tail behaviour for size bits 31: three extension bytes, base 65821. -/
theorem read_control_tail_ext3 {buf : List Nat} {cb dt offset : Nat} (hdt : dt ≠ 0)
    (hsz : cb % 32 = 31) (h : offset + 3 ≤ buf.length) (hlim : buf.length < USIZE_LIMIT)
    (hb : ∀ x ∈ buf, x < 256) :
    read_control_tail buf cb dt offset =
      .ok ((dt, (buf.getD offset 0 * 256 + buf.getD (offset + 1) 0) * 256 +
        buf.getD (offset + 2) 0 + 65821), offset + 3) := by
  unfold read_control_tail
  rw [hsz]
  rw [if_neg (by simp only [DATA_TYPE_EXTENDED]; omega)]
  rw [show (31 : Nat) - 28 = 3 by norm_num]
  rw [read_bytes_eq_ok buf offset 3 (by omega) hlim]
  rw [drop_take_succ buf offset 2 (by omega), drop_take_succ buf (offset + 1) 1 (by omega),
    drop_take_succ buf (offset + 2) 0 (by omega), List.take_zero]
  dsimp only [bytes_to_usize]
  rw [lor_byte (buf.getD offset 0) _ (getD_lt_of_all_lt hb (by omega))]
  rw [lor_byte _ _ (getD_lt_of_all_lt hb (by omega))]

/-- read_control on a non-extended control byte with a small size field. -/
theorem read_control_small {buf : List Nat} {offset cb : Nat} (hcb : buf[offset]? = some cb)
    (hdt : cb >>> 5 ≠ 0) (hsz : cb % 32 < 29) :
    read_control buf offset = .ok ((cb >>> 5, cb % 32), offset + 1) := by
  unfold read_control
  rw [hcb]
  simp only [DATA_TYPE_EXTENDED]
  rw [if_neg hdt]
  exact read_control_tail_small hsz

/-- read_control on a non-extended control byte defers to the tail at the next
cursor position. -/
theorem read_control_as_tail {buf : List Nat} {offset cb : Nat} (hcb : buf[offset]? = some cb)
    (hdt : cb >>> 5 ≠ 0) :
    read_control buf offset = read_control_tail buf cb (cb >>> 5) (offset + 1) := by
  unfold read_control
  rw [hcb]
  simp only [DATA_TYPE_EXTENDED]
  rw [if_neg hdt]

/-- read_control on an extended control byte whose type addition does not
overflow defers to the tail two positions on. -/
theorem read_control_ext_as_tail {buf : List Nat} {offset cb b : Nat}
    (hcb : buf[offset]? = some cb) (h0 : cb >>> 5 = 0) (hb : buf[offset + 1]? = some b)
    (hlt : b + 7 < 256) :
    read_control buf offset = read_control_tail buf cb (b + 7) (offset + 2) := by
  unfold read_control
  rw [hcb]
  simp only [DATA_TYPE_EXTENDED]
  rw [if_pos h0, hb]
  dsimp only
  rw [if_pos hlt]


theorem read_control_tail_ne_panic {buf : List Nat} {cb dt offset : Nat}
    (hlim : offset + 3 < USIZE_LIMIT) : read_control_tail buf cb dt offset ≠ .panic := by
  unfold read_control_tail
  split
  · simp
  · cases hrb : read_bytes buf offset (cb % 32 - 28) with
    | ok v => cases v with | mk a b => simp
    | err e => simp
    | panic =>
      exfalso
      have h3 : cb % 32 - 28 ≤ 3 := by omega
      unfold read_bytes at hrb
      rw [if_neg (by omega)] at hrb
      dsimp only at hrb
      split at hrb <;> simp at hrb

/-- Characterization of the panics of read_control: the unchecked control-byte
index, the unchecked extended-type index, and the u8 overflow of the extended
type code. -/
theorem read_control_panic_iff (buf : List Nat) (offset : Nat)
    (hlim : buf.length + 4 < USIZE_LIMIT) :
    read_control buf offset = .panic ↔
      buf.length ≤ offset ∨ (buf.getD offset 0 >>> 5 = 0 ∧
        (buf.length ≤ offset + 1 ∨ 249 ≤ buf.getD (offset + 1) 0)) := by
  unfold read_control
  cases hcb : buf[offset]? with
  | none =>
    rw [List.getElem?_eq_none_iff] at hcb
    exact iff_of_true rfl (Or.inl hcb)
  | some cb =>
    have hofflt : offset < buf.length := by
      by_contra hge
      rw [List.getElem?_eq_none_iff.mpr (by omega)] at hcb
      cases hcb
    have hgd : buf.getD offset 0 = cb := by
      rw [List.getD_eq_getElem?_getD, hcb]; rfl
    simp only [DATA_TYPE_EXTENDED]
    by_cases h0 : cb >>> 5 = 0
    · rw [if_pos h0]
      cases hb : buf[offset + 1]? with
      | none =>
        rw [List.getElem?_eq_none_iff] at hb
        exact iff_of_true rfl (Or.inr ⟨by rw [hgd]; exact h0, Or.inl hb⟩)
      | some b =>
        have hb1lt : offset + 1 < buf.length := by
          by_contra hge
          rw [List.getElem?_eq_none_iff.mpr (by omega)] at hb
          cases hb
        have hgd1 : buf.getD (offset + 1) 0 = b := by
          rw [List.getD_eq_getElem?_getD, hb]; rfl
        dsimp only
        by_cases hlt : b + 7 < 256
        · rw [if_pos hlt]
          have hne := @read_control_tail_ne_panic buf cb (b + 7) (offset + 1 + 1) (by omega)
          constructor
          · intro hc; exact absurd hc hne
          · rintro (h | ⟨-, (h | h)⟩) <;> omega
        · rw [if_neg hlt]
          exact iff_of_true rfl
            (Or.inr ⟨by rw [hgd]; exact h0, Or.inr (by rw [hgd1]; omega)⟩)
    · rw [if_neg h0]
      have hne := @read_control_tail_ne_panic buf cb (cb >>> 5) (offset + 1) (by omega)
      constructor
      · intro hc; exact absurd hc hne
      · rintro (h | ⟨h5, -⟩)
        · omega
        · rw [hgd] at h5; exact absurd h5 h0

/-- C7 (corrected): bounds handling of the decoder primitives. Reads that go
through read_bytes (value payloads, pointer bytes, size-extension bytes)
return InvalidOffset exactly when the requested range extends past the end of
the buffer; but read_control fetches the control byte, and the extended-type
byte, with unchecked indexing and adds 7 to the extended type byte in u8
arithmetic, so at or past the end of the buffer (or with an extended-type byte
of at least 249) it aborts instead of returning InvalidOffset. -/
theorem c7_oob (buf : List Nat) (offset size : Nat) (hlim : buf.length + 4 < USIZE_LIMIT) :
    (offset + size ≤ buf.length →
      read_bytes buf offset size = .ok ((buf.drop offset).take size, offset + size)) ∧
    (read_bytes buf offset size = .err .InvalidOffset ↔
      buf.length < offset + size ∧ offset + size < USIZE_LIMIT) ∧
    (read_control buf offset = .panic ↔
      buf.length ≤ offset ∨ (buf.getD offset 0 >>> 5 = 0 ∧
        (buf.length ≤ offset + 1 ∨ 249 ≤ buf.getD (offset + 1) 0))) := by
  refine ⟨fun h => read_bytes_eq_ok buf offset size h (by omega), ?_, ?_⟩
  · constructor
    · intro h
      unfold read_bytes at h
      by_cases h1 : USIZE_LIMIT ≤ offset + size
      · rw [if_pos h1] at h; cases h
      · rw [if_neg h1] at h
        dsimp only at h
        by_cases h2 : buf.length < offset + size
        · exact ⟨h2, by omega⟩
        · rw [if_neg h2] at h; cases h
    · intro ⟨h1, h2⟩
      exact read_bytes_eq_err buf offset size h1 h2
  · exact read_control_panic_iff buf offset hlim

/-- C7 witness: the theorem instantiated at the two-byte buffer [224, 0],
cursor 0, size 1. -/
theorem c7_oob_witness :
    (0 + 1 ≤ [224, 0].length →
      read_bytes [224, 0] 0 1 = .ok ((List.drop 0 [224, 0]).take 1, 0 + 1)) ∧
    (read_bytes [224, 0] 0 1 = .err .InvalidOffset ↔
      [224, 0].length < 0 + 1 ∧ 0 + 1 < USIZE_LIMIT) ∧
    (read_control [224, 0] 0 = .panic ↔
      [224, 0].length ≤ 0 ∨ ([224, 0].getD 0 0 >>> 5 = 0 ∧
        ([224, 0].length ≤ 0 + 1 ∨ 249 ≤ [224, 0].getD (0 + 1) 0))) :=
  c7_oob [224, 0] 0 1 (by norm_num [USIZE_LIMIT])

/-- C7 counterexample: at an empty buffer (cursor at the end) the control-byte
fetch of read_control is an out-of-bounds access that aborts, and so do the
operations built on it (read_str shown); the claimed InvalidOffset is not
returned. -/
theorem c7_oob_cex :
    read_control [] 0 = .panic ∧ read_str [] 0 = .panic ∧
      (RRes.panic ≠ (.err .InvalidOffset : RRes ((Nat × Nat) × Nat))) :=
  ⟨by decide, by decide, by decide⟩

theorem find_metadata_loop_not_found (buf : List Nat) :
    ∀ n, (∀ q, q < n → (buf.drop q).take 14 ≠ METADATA_START_MARKER) →
      find_metadata_loop buf n = .err .MetadataNotFound
  | 0, _ => rfl
  | n + 1, h => by
    unfold find_metadata_loop
    rw [if_neg (h n (by omega))]
    exact find_metadata_loop_not_found buf n (fun q hq => h q (by omega))

theorem find_metadata_loop_found (buf : List Nat) (p : Nat)
    (hp : (buf.drop p).take 14 = METADATA_START_MARKER) :
    ∀ n, p < n → (∀ q, p < q → q < n → (buf.drop q).take 14 ≠ METADATA_START_MARKER) →
      find_metadata_loop buf n = .ok (p + 14)
  | 0, hlt, _ => absurd hlt (by omega)
  | n + 1, hlt, hmax => by
    unfold find_metadata_loop
    by_cases hq : p = n
    · subst hq
      rw [if_pos hp]
    · rw [if_neg (hmax n (by omega) (by omega))]
      exact find_metadata_loop_found buf p hp n (by omega) (fun q h1 h2 => hmax q h1 (by omega))

/-- C8 (amended): find_metadata_start examines candidate positions one byte at
a time starting from buf.len() - 15 downward to 0 (the scan position starts at
buf.len() - 14 but is decremented before each comparison, so an occurrence
whose last byte is the final byte of the buffer is missed); among the examined
positions it returns the byte index immediately after the highest-position
occurrence of the 14-byte marker, and MetadataNotFound when no examined
position holds the marker. -/
theorem c8_metadata_scan (buf : List Nat) (hlen : 14 ≤ buf.length) :
    (∀ p, (buf.drop p).take 14 = METADATA_START_MARKER → p + 15 ≤ buf.length →
      (∀ q, p < q → q + 15 ≤ buf.length → (buf.drop q).take 14 ≠ METADATA_START_MARKER) →
      find_metadata_start buf = .ok (p + 14)) ∧
    ((∀ q, q + 15 ≤ buf.length → (buf.drop q).take 14 ≠ METADATA_START_MARKER) →
      find_metadata_start buf = .err .MetadataNotFound) := by
  constructor
  · intro p hp hle hmax
    unfold find_metadata_start
    rw [if_neg (by omega)]
    exact find_metadata_loop_found buf p hp (buf.length - 14) (by omega)
      (fun q h1 h2 => hmax q h1 (by omega))
  · intro hnone
    unfold find_metadata_start
    rw [if_neg (by omega)]
    exact find_metadata_loop_not_found buf (buf.length - 14) (fun q hq => hnone q (by omega))

/-- C8 witness: in the 16-byte buffer 0 ++ marker ++ 0 the only examined
occurrence is at position 1 and the scan returns 15. -/
theorem c8_metadata_scan_witness :
    find_metadata_start ([0] ++ METADATA_START_MARKER ++ [0]) = .ok (1 + 14) := by
  have hlen : ([0] ++ METADATA_START_MARKER ++ [0]).length = 16 := by decide
  exact (c8_metadata_scan ([0] ++ METADATA_START_MARKER ++ [0]) (by omega)).1 1 (by decide)
    (by omega) (fun q h1 h2 => absurd h1 (by omega))

/-- C8 counterexample: a buffer that is exactly the marker contains an
occurrence (at position 0, ending at the last byte), yet find_metadata_start
reports MetadataNotFound, because the scan never examines position
buf.len() - 14. -/
theorem c8_metadata_scan_cex :
    (METADATA_START_MARKER.drop 0).take 14 = METADATA_START_MARKER ∧
      find_metadata_start METADATA_START_MARKER = .err .MetadataNotFound :=
  ⟨by decide, by decide⟩


/-- C9 (amended): entry behaviour of the record decoders. The trait's default
decode (used by the models.rs sub-records) accepts a MAP or a one-hop POINTER
resolving to a MAP and rejects anything else with InvalidDataType; but the
top-level record impls in reader.rs (Country, AnonymousIp, and the other
records with the identical override) accept ONLY a literal MAP tag and return
InvalidDataType even for a POINTER that resolves to a MAP; and
Metadata::from_bytes performs no tag check at all, delegating to its field
loop with the header's size for every tag. -/
theorem c9_decode_entry {α : Type} (dws : List Nat → Nat → Nat → RRes (α × Nat))
    (buf : List Nat) (dt size off2 offset : Nat)
    (hrc : read_control buf offset = .ok ((dt, size), off2)) :
    (dt ≠ DATA_TYPE_MAP →
      Country.decode buf offset = .err (.InvalidDataType dt) ∧
      AnonymousIp.decode buf offset = .err (.InvalidDataType dt)) ∧
    (dt = DATA_TYPE_MAP →
      Country.decode buf offset = Country.decode_with_size buf off2 size ∧
      AnonymousIp.decode buf offset = AnonymousIp.decode_with_size buf off2 size ∧
      decode_default dws buf offset = dws buf off2 size) ∧
    (dt ≠ DATA_TYPE_MAP → dt ≠ DATA_TYPE_POINTER →
      decode_default dws buf offset = .err (.InvalidDataType dt)) ∧
    (dt = DATA_TYPE_POINTER →
      ∀ p off3 dt2 size2 off4,
        read_pointer buf off2 size = .ok (p, off3) →
        read_control buf p = .ok ((dt2, size2), off4) →
        dt2 = DATA_TYPE_MAP →
        ∀ v off5, dws buf off4 size2 = .ok (v, off5) →
          decode_default dws buf offset = .ok (v, off3)) ∧
    (offset = 0 →
      Metadata.from_bytes buf =
        discard_offset (Metadata.decode_loop buf off2 size Metadata.default)) := by
  refine ⟨?_, ?_, ?_, ?_, ?_⟩
  · intro hne
    constructor
    · unfold Country.decode
      rw [hrc]
      dsimp only
      rw [if_pos hne]
    · unfold AnonymousIp.decode
      rw [hrc]
      dsimp only
      rw [if_pos hne]
  · intro heq
    refine ⟨?_, ?_, ?_⟩
    · unfold Country.decode
      rw [hrc]
      dsimp only
      rw [if_neg (by simp [heq])]
    · unfold AnonymousIp.decode
      rw [hrc]
      dsimp only
      rw [if_neg (by simp [heq])]
    · unfold decode_default
      rw [hrc]
      dsimp only
      rw [if_pos heq]
  · intro hne hnp
    unfold decode_default
    rw [hrc]
    dsimp only
    rw [if_neg hne, if_neg hnp]
  · intro hptr p off3 dt2 size2 off4 hrp hrc2 hmap v off5 hdws
    unfold decode_default
    rw [hrc]
    dsimp only
    rw [if_neg (by rw [hptr]; decide), if_pos hptr, hrp]
    dsimp only
    rw [hrc2]
    dsimp only
    rw [if_pos hmap, hdws]
  · intro h0
    subst h0
    unfold Metadata.from_bytes
    rw [hrc]

/-- C9 witness: the theorem instantiated at the one-byte buffer holding an
empty MAP, with a constant decode_with_size. -/
theorem c9_decode_entry_witness :
    ((7 : Nat) ≠ DATA_TYPE_MAP →
      Country.decode [224] 0 = .err (.InvalidDataType 7) ∧
      AnonymousIp.decode [224] 0 = .err (.InvalidDataType 7)) ∧
    ((7 : Nat) = DATA_TYPE_MAP →
      Country.decode [224] 0 = Country.decode_with_size [224] 1 0 ∧
      AnonymousIp.decode [224] 0 = AnonymousIp.decode_with_size [224] 1 0 ∧
      decode_default (fun _ o _ => .ok ((0 : Nat), o)) [224] 0 =
        (fun (_ : List Nat) (o : Nat) (_ : Nat) => RRes.ok ((0 : Nat), o)) [224] 1 0) ∧
    ((7 : Nat) ≠ DATA_TYPE_MAP → (7 : Nat) ≠ DATA_TYPE_POINTER →
      decode_default (fun _ o _ => .ok ((0 : Nat), o)) [224] 0 = .err (.InvalidDataType 7)) ∧
    ((7 : Nat) = DATA_TYPE_POINTER →
      ∀ p off3 dt2 size2 off4,
        read_pointer [224] 1 0 = .ok (p, off3) →
        read_control [224] p = .ok ((dt2, size2), off4) →
        dt2 = DATA_TYPE_MAP →
        ∀ v off5, (fun (_ : List Nat) (o : Nat) (_ : Nat) => RRes.ok ((0 : Nat), o)) [224] off4 size2 = .ok (v, off5) →
          decode_default (fun _ o _ => .ok ((0 : Nat), o)) [224] 0 = .ok (v, off3)) ∧
    ((0 : Nat) = 0 →
      Metadata.from_bytes [224] =
        discard_offset (Metadata.decode_loop [224] 1 0 Metadata.default)) :=
  c9_decode_entry (fun _ o _ => .ok ((0 : Nat), o)) [224] 7 0 1 0 (by decide)

/-- C9 counterexample: a POINTER at offset 0 of [32, 2, 224] resolves in one
hop to the empty MAP at offset 2 (the models.rs City decoder, which uses the
trait default, accepts it), yet the reader.rs Country decoder cited by the
claim returns InvalidDataType(1) instead of succeeding; and Metadata
decoding accepts the non-MAP tag SLICE (buffer [0, 4]) without any
InvalidDataType error. -/
theorem c9_decode_entry_cex :
    Country.decode [32, 2, 224] 0 = .err (.InvalidDataType 1) ∧
      models.City.decode [32, 2, 224] 0 = .ok ({ geoname_id := none, names := none }, 2) ∧
      Metadata.from_bytes [0, 4] = .ok Metadata.default :=
  ⟨by decide, by decide, by decide⟩

/-- C10: if the tree walk hands lookup a record value r with
node_count < r < node_count + 16 (the walk only guarantees r > node_count),
the data-offset computation r - node_count - 16, performed before any bounds
check, underflows usize, so lookup aborts instead of returning
CorruptSearchTree: lookup is total only under the unstated precondition
r ≥ node_count + 16. (With overflow checks compiled out, the wrapped offset
exceeds every real buffer length and the subsequent check happens to fire.) -/
theorem c10_offset_underflow {α : Type} (dec : List Nat → Nat → RRes (α × Nat))
    (r : Reader) (ip : List Nat) (p : Nat)
    (hfind : find_address_in_tree r ip = .ok p)
    (hlo : r.node_count < p) (hhi : p < r.node_count + 16) :
    lookup dec r ip = .panic := by
  unfold lookup
  rw [hfind]
  dsimp only
  rw [if_neg (by omega)]
  unfold checked_sub
  rw [if_pos (by omega : r.node_count ≤ p)]
  dsimp only
  rw [if_neg (by simp only [DATA_SECTION_SEPARATOR_SIZE]; omega)]

/-- Concrete reader for the C10 witness: one 24-bit node whose left record is
5, node_count 1, so the walk of 0.0.0.0 ends at 5 with 1 < 5 < 17. -/
def readerB : Reader :=
  { data := [0, 0, 5, 0, 0, 0], search_tree_size := 6, record_size := 24, node_count := 1,
    node_offset_multi := 6, ip_v4_start := 0 }

/-- C10 witness: on readerB the walk of 0.0.0.0 yields 5, strictly between
node_count and node_count + 16, and lookup aborts. -/
theorem c10_offset_underflow_witness :
    find_address_in_tree readerB [0, 0, 0, 0] = .ok 5 ∧ readerB.node_count < 5 ∧
      5 < readerB.node_count + 16 ∧ lookup AnonymousIp.decode readerB [0, 0, 0, 0] = .panic :=
  ⟨by decide, by decide, by decide,
    c10_offset_underflow AnonymousIp.decode readerB [0, 0, 0, 0] 5 (by decide) (by decide)
      (by decide)⟩


/-- When the walk hands lookup a nonzero pointer, lookup cannot produce
AddressNotFound (given that the record decoder never produces it): every later
outcome is a panic, CorruptSearchTree, or the decoder's own result. -/
theorem lookup_ne_anf_of_pos {α : Type} (dec : List Nat → Nat → RRes (α × Nat))
    (r : Reader) (ip : List Nat) (n : Nat)
    (hfind : find_address_in_tree r ip = .ok n) (hn : n ≠ 0)
    (hdec : ∀ b o, dec b o ≠ .err .AddressNotFound) :
    lookup dec r ip ≠ .err .AddressNotFound := by
  unfold lookup
  rw [hfind]
  dsimp only
  rw [if_neg hn]
  unfold checked_sub
  by_cases hc1 : r.node_count ≤ n
  · rw [if_pos hc1]
    dsimp only
    by_cases hc2 : DATA_SECTION_SEPARATOR_SIZE ≤ n - r.node_count
    · rw [if_pos hc2]
      dsimp only
      by_cases hc3 : r.data.length ≤ n - r.node_count - DATA_SECTION_SEPARATOR_SIZE
      · rw [if_pos hc3]
        simp
      · rw [if_neg hc3]
        by_cases hc4 : r.data.length < r.search_tree_size + DATA_SECTION_SEPARATOR_SIZE
        · rw [if_pos hc4]
          simp
        · rw [if_neg hc4]
          cases hdd : dec (r.data.drop (r.search_tree_size + DATA_SECTION_SEPARATOR_SIZE))
              (n - r.node_count - DATA_SECTION_SEPARATOR_SIZE) with
          | ok v =>
            cases v with
            | mk a b => simp [discard_offset]
          | err e =>
            simp only [discard_offset]
            intro hcon
            injection hcon with he
            exact hdec _ _ (by rw [hdd, he])
          | panic => simp [discard_offset]
    · rw [if_neg hc2]
      simp
  · rw [if_neg hc1]
    simp

/-- C1: for every reader whose search tree fits the buffer and every 4- or
16-byte address, find_address_in_tree returns 0 exactly when the walk stops at
a record value equal to node_count; when the final value exceeds node_count it
returns that value itself; and it returns InvalidNode exactly when the final
value is still below node_count — which, the step function being absorbing at
values at least node_count, happens exactly when all address bits were
consumed with the node still internal. lookup (with a record decoder that
never fabricates AddressNotFound, as none of the crate's decoders do) returns
AddressNotFound exactly when the walk returned 0. -/
theorem c1_walk_termination {α : Type} (dec : List Nat → Nat → RRes (α × Nat))
    (r : Reader) (ip : List Nat) (hip : ip.length = 4 ∨ ip.length = 16)
    (hsts : r.search_tree_size ≤ r.data.length)
    (hdec : ∀ b o, dec b o ≠ .err .AddressNotFound) :
    (find_address_in_tree r ip = .ok 0 ↔ walk_node r ip = r.node_count) ∧
    (r.node_count < walk_node r ip → find_address_in_tree r ip = .ok (walk_node r ip)) ∧
    (find_address_in_tree r ip = .err .InvalidNode ↔ walk_node r ip < r.node_count) ∧
    (lookup dec r ip = .err .AddressNotFound ↔ find_address_in_tree r ip = .ok 0) := by
  rcases Nat.lt_trichotomy (walk_node r ip) r.node_count with hlt | heq | hgt
  · have hfind : find_address_in_tree r ip = .err .InvalidNode := by
      unfold find_address_in_tree
      rw [if_neg (by omega)]
      dsimp only
      rw [if_neg (by omega), if_neg (by omega)]
    refine ⟨iff_of_false (by rw [hfind]; simp) (by omega), by omega,
      iff_of_true hfind hlt, iff_of_false ?_ (by rw [hfind]; simp)⟩
    unfold lookup
    rw [hfind]
    dsimp only
    simp
  · have hfind : find_address_in_tree r ip = .ok 0 := by
      unfold find_address_in_tree
      rw [if_neg (by omega)]
      dsimp only
      rw [if_pos heq]
    refine ⟨iff_of_true hfind heq, by omega,
      iff_of_false (by rw [hfind]; simp) (by omega), iff_of_true ?_ hfind⟩
    unfold lookup
    rw [hfind]
    dsimp only
    rw [if_pos rfl]
  · have hfind : find_address_in_tree r ip = .ok (walk_node r ip) := by
      unfold find_address_in_tree
      rw [if_neg (by omega)]
      dsimp only
      rw [if_neg (by omega), if_pos hgt]
    refine ⟨iff_of_false ?_ (by omega), fun _ => hfind,
      iff_of_false (by rw [hfind]; simp) (by omega), iff_of_false ?_ ?_⟩
    · rw [hfind]
      simp only [RRes.ok.injEq]
      omega
    · exact lookup_ne_anf_of_pos dec r ip (walk_node r ip) hfind (by omega) hdec
    · rw [hfind]
      simp only [RRes.ok.injEq]
      omega

/-- C1 witness: the theorem instantiated at readerB, the address 0.0.0.0 and a
decoder that always reports InvalidOffset. -/
theorem c1_walk_termination_witness :
    (find_address_in_tree readerB [0, 0, 0, 0] = .ok 0 ↔
      walk_node readerB [0, 0, 0, 0] = readerB.node_count) ∧
    (readerB.node_count < walk_node readerB [0, 0, 0, 0] →
      find_address_in_tree readerB [0, 0, 0, 0] = .ok (walk_node readerB [0, 0, 0, 0])) ∧
    (find_address_in_tree readerB [0, 0, 0, 0] = .err .InvalidNode ↔
      walk_node readerB [0, 0, 0, 0] < readerB.node_count) ∧
    (lookup (fun (_ : List Nat) (_ : Nat) => (.err .InvalidOffset : RRes (Nat × Nat)))
        readerB [0, 0, 0, 0] = .err .AddressNotFound ↔
      find_address_in_tree readerB [0, 0, 0, 0] = .ok 0) :=
  c1_walk_termination (fun _ _ => .err .InvalidOffset) readerB [0, 0, 0, 0]
    (Or.inl (by decide)) (by decide) (fun _ _ h => Error.noConfusion (RRes.err.inj h))


/-- Specification-side big-endian value of a byte sequence (the spec's
"big-endian concatenation" of the bytes). -/
def be_value (bs : List Nat) : Nat := bs.foldl (fun a b => a * 256 + b) 0

/-- The source's shift-and-or prefix composition agrees with the spec's
big-endian concatenation: the prefix is prepended as the most significant
group above the bytes' big-endian value. -/
theorem with_prefix_eq (p : Nat) (bs : List Nat) (hlen : bs.length ≤ 8)
    (hb : ∀ x ∈ bs, x < 256) :
    bytes_to_usize_with_prefix p bs = p * 256 ^ bs.length + be_value bs := by
  match bs with
  | [] => simp [ bytes_to_usize_with_prefix, be_value]
  | [b0] =>
    have h0 : b0 < 256 := hb _ (by simp)
    simp only [ bytes_to_usize_with_prefix, be_value, List.foldl_cons, List.foldl_nil,
      List.length_cons, List.length_nil]
    rw [lor_byte _ _ h0]
    ring
  | [b0, b1] =>
    have h0 : b0 < 256 := hb _ (by simp)
    have h1 : b1 < 256 := hb _ (by simp)
    simp only [ bytes_to_usize_with_prefix, be_value, List.foldl_cons, List.foldl_nil,
      List.length_cons, List.length_nil]
    rw [lor_byte _ _ h1, lor_byte _ _ h0]
    ring
  | [b0, b1, b2] =>
    have h0 : b0 < 256 := hb _ (by simp)
    have h1 : b1 < 256 := hb _ (by simp)
    have h2 : b2 < 256 := hb _ (by simp)
    simp only [ bytes_to_usize_with_prefix, be_value, List.foldl_cons, List.foldl_nil,
      List.length_cons, List.length_nil]
    rw [lor_byte _ _ h2, lor_byte _ _ h1, lor_byte _ _ h0]
    ring
  | [b0, b1, b2, b3] =>
    have h0 : b0 < 256 := hb _ (by simp)
    have h1 : b1 < 256 := hb _ (by simp)
    have h2 : b2 < 256 := hb _ (by simp)
    have h3 : b3 < 256 := hb _ (by simp)
    simp only [ bytes_to_usize_with_prefix, be_value, List.foldl_cons, List.foldl_nil,
      List.length_cons, List.length_nil]
    rw [lor_byte _ _ h3, lor_byte _ _ h2, lor_byte _ _ h1, lor_byte _ _ h0]
    ring
  | [b0, b1, b2, b3, b4] =>
    have h0 : b0 < 256 := hb _ (by simp)
    have h1 : b1 < 256 := hb _ (by simp)
    have h2 : b2 < 256 := hb _ (by simp)
    have h3 : b3 < 256 := hb _ (by simp)
    have h4 : b4 < 256 := hb _ (by simp)
    simp only [ bytes_to_usize_with_prefix, be_value, List.foldl_cons, List.foldl_nil,
      List.length_cons, List.length_nil]
    rw [lor_byte _ _ h4, lor_byte _ _ h3, lor_byte _ _ h2, lor_byte _ _ h1, lor_byte _ _ h0]
    ring
  | [b0, b1, b2, b3, b4, b5] =>
    have h0 : b0 < 256 := hb _ (by simp)
    have h1 : b1 < 256 := hb _ (by simp)
    have h2 : b2 < 256 := hb _ (by simp)
    have h3 : b3 < 256 := hb _ (by simp)
    have h4 : b4 < 256 := hb _ (by simp)
    have h5 : b5 < 256 := hb _ (by simp)
    simp only [ bytes_to_usize_with_prefix, be_value, List.foldl_cons, List.foldl_nil,
      List.length_cons, List.length_nil]
    rw [lor_byte _ _ h5, lor_byte _ _ h4, lor_byte _ _ h3, lor_byte _ _ h2, lor_byte _ _ h1, lor_byte _ _ h0]
    ring
  | [b0, b1, b2, b3, b4, b5, b6] =>
    have h0 : b0 < 256 := hb _ (by simp)
    have h1 : b1 < 256 := hb _ (by simp)
    have h2 : b2 < 256 := hb _ (by simp)
    have h3 : b3 < 256 := hb _ (by simp)
    have h4 : b4 < 256 := hb _ (by simp)
    have h5 : b5 < 256 := hb _ (by simp)
    have h6 : b6 < 256 := hb _ (by simp)
    simp only [ bytes_to_usize_with_prefix, be_value, List.foldl_cons, List.foldl_nil,
      List.length_cons, List.length_nil]
    rw [lor_byte _ _ h6, lor_byte _ _ h5, lor_byte _ _ h4, lor_byte _ _ h3, lor_byte _ _ h2, lor_byte _ _ h1, lor_byte _ _ h0]
    ring
  | [b0, b1, b2, b3, b4, b5, b6, b7] =>
    have h0 : b0 < 256 := hb _ (by simp)
    have h1 : b1 < 256 := hb _ (by simp)
    have h2 : b2 < 256 := hb _ (by simp)
    have h3 : b3 < 256 := hb _ (by simp)
    have h4 : b4 < 256 := hb _ (by simp)
    have h5 : b5 < 256 := hb _ (by simp)
    have h6 : b6 < 256 := hb _ (by simp)
    have h7 : b7 < 256 := hb _ (by simp)
    simp only [ bytes_to_usize_with_prefix, be_value, List.foldl_cons, List.foldl_nil,
      List.length_cons, List.length_nil]
    rw [lor_byte _ _ h7, lor_byte _ _ h6, lor_byte _ _ h5, lor_byte _ _ h4, lor_byte _ _ h3, lor_byte _ _ h2, lor_byte _ _ h1, lor_byte _ _ h0]
    ring
  | b0 :: b1 :: b2 :: b3 :: b4 :: b5 :: b6 :: b7 :: b8 :: rest =>
    exact absurd hlen (by simp)


/-- C4: for every POINTER size field s, read_pointer computes
pointer_size = ((s >> 3) & 3) + 1; when pointer_size is not 4 it prepends the
low 3 bits of s as a big-endian prefix group above the following pointer_size
bytes (no prefix when pointer_size = 4), and adds exactly 0, 2048, 526336 or 0
for pointer_size 1, 2, 3, 4 respectively. -/
theorem c4_read_pointer (buf : List Nat) (offset s : Nat) (hb : ∀ x ∈ buf, x < 256)
    (bytes : List Nat) (off2 : Nat)
    (hrb : read_bytes buf offset (((s >>> 3) &&& 3) + 1) = .ok (bytes, off2)) :
    read_pointer buf offset s =
      .ok ((if ((s >>> 3) &&& 3) + 1 ≠ 4 then s &&& 7 else 0) * 256 ^ (((s >>> 3) &&& 3) + 1) +
        be_value bytes +
        (if ((s >>> 3) &&& 3) + 1 = 2 then 2048
         else if ((s >>> 3) &&& 3) + 1 = 3 then 526336 else 0), off2) := by
  obtain ⟨hbs, hoff2, hle⟩ := read_bytes_ok_inv hrb
  have hand : (s >>> 3) &&& 3 ≤ 3 := Nat.and_le_right
  have hlen : bytes.length = ((s >>> 3) &&& 3) + 1 := by
    rw [hbs, List.length_take, List.length_drop]
    omega
  have hbb : ∀ x ∈ bytes, x < 256 := by
    intro x hx
    rw [hbs] at hx
    exact hb _ (List.mem_of_mem_drop (List.mem_of_mem_take hx))
  unfold read_pointer
  dsimp only
  rw [hrb]
  dsimp only
  rw [with_prefix_eq _ _ (by omega) hbb, hlen]
  have ha : (s >>> 3) &&& 3 = 0 ∨ (s >>> 3) &&& 3 = 1 ∨ (s >>> 3) &&& 3 = 2 ∨
      (s >>> 3) &&& 3 = 3 := by omega
  rcases ha with h | h | h | h <;> rw [h] <;> norm_num

/-- C4 witness: the theorem at the two-byte buffer [7, 9] and size field 9
(pointer_size 2, prefix 1): target 1 * 65536 + 1801 + 2048 = 69385. -/
theorem c4_read_pointer_witness : read_pointer [7, 9] 0 9 = .ok (69385, 2) :=
  (c4_read_pointer [7, 9] 0 9 (by decide) [7, 9] 2 (by decide)).trans (by decide)


/-- C3 (amended): read_control returns the low 5 bits of the control byte as
the size when they are below 29; when they are 29, 30 or 31 it reads 1, 2 or 3
additional bytes big-endian and adds 29, 285 or 65821 respectively, making the
decodable sizes at the encoding-class boundaries exactly 28, 29, 284, 285,
65820 and 65821 — EXCEPT that when the control byte has the extended type code
and the extended-type byte is at least 249, the u8 addition `byte + 7`
overflows and the call aborts before any size handling. -/
theorem c3_read_control_sizes (buf : List Nat) (offset cb : Nat)
    (hb : ∀ x ∈ buf, x < 256) (hlim : buf.length < USIZE_LIMIT)
    (hcb : buf[offset]? = some cb) :
    (cb >>> 5 ≠ 0 → cb % 32 < 29 →
      read_control buf offset = .ok ((cb >>> 5, cb % 32), offset + 1)) ∧
    (cb >>> 5 ≠ 0 → cb % 32 = 29 → offset + 2 ≤ buf.length →
      read_control buf offset = .ok ((cb >>> 5, buf.getD (offset + 1) 0 + 29), offset + 2)) ∧
    (cb >>> 5 ≠ 0 → cb % 32 = 30 → offset + 3 ≤ buf.length →
      read_control buf offset =
        .ok ((cb >>> 5, buf.getD (offset + 1) 0 * 256 + buf.getD (offset + 2) 0 + 285),
          offset + 3)) ∧
    (cb >>> 5 ≠ 0 → cb % 32 = 31 → offset + 4 ≤ buf.length →
      read_control buf offset =
        .ok ((cb >>> 5, (buf.getD (offset + 1) 0 * 256 + buf.getD (offset + 2) 0) * 256 +
          buf.getD (offset + 3) 0 + 65821), offset + 4)) ∧
    (∀ b, cb >>> 5 = 0 → buf[offset + 1]? = some b → b + 7 < 256 →
      (cb % 32 < 29 → read_control buf offset = .ok ((b + 7, cb % 32), offset + 2)) ∧
      (cb % 32 = 29 → offset + 3 ≤ buf.length →
        read_control buf offset = .ok ((b + 7, buf.getD (offset + 2) 0 + 29), offset + 3)) ∧
      (cb % 32 = 30 → offset + 4 ≤ buf.length →
        read_control buf offset = .ok ((b + 7, buf.getD (offset + 2) 0 * 256 +
          buf.getD (offset + 3) 0 + 285), offset + 4)) ∧
      (cb % 32 = 31 → offset + 5 ≤ buf.length →
        read_control buf offset = .ok ((b + 7, (buf.getD (offset + 2) 0 * 256 +
          buf.getD (offset + 3) 0) * 256 + buf.getD (offset + 4) 0 + 65821), offset + 5))) ∧
    (∀ b, cb >>> 5 = 0 → buf[offset + 1]? = some b → 249 ≤ b →
      read_control buf offset = .panic) ∧
    (read_control [188] 0 = .ok ((5, 28), 1) ∧ read_control [189, 0] 0 = .ok ((5, 29), 2) ∧
      read_control [189, 255] 0 = .ok ((5, 284), 2) ∧
      read_control [190, 0, 0] 0 = .ok ((5, 285), 3) ∧
      read_control [190, 255, 255] 0 = .ok ((5, 65820), 3) ∧
      read_control [191, 0, 0, 0] 0 = .ok ((5, 65821), 4)) := by
  refine ⟨?_, ?_, ?_, ?_, ?_, ?_, ?_⟩
  · intro hdt hsz
    exact read_control_small hcb hdt hsz
  · intro hdt hsz h
    rw [read_control_as_tail hcb hdt]
    exact read_control_tail_ext1 hdt hsz (by omega) hlim
  · intro hdt hsz h
    rw [read_control_as_tail hcb hdt]
    exact read_control_tail_ext2 hdt hsz (by omega) hlim hb
  · intro hdt hsz h
    rw [read_control_as_tail hcb hdt]
    exact read_control_tail_ext3 hdt hsz (by omega) hlim hb
  · intro b h0 hby hlt
    refine ⟨?_, ?_, ?_, ?_⟩
    · intro hsz
      rw [read_control_ext_as_tail hcb h0 hby hlt]
      exact read_control_tail_small hsz
    · intro hsz h
      rw [read_control_ext_as_tail hcb h0 hby hlt]
      exact read_control_tail_ext1 (by omega) hsz (by omega) hlim
    · intro hsz h
      rw [read_control_ext_as_tail hcb h0 hby hlt]
      exact read_control_tail_ext2 (by omega) hsz (by omega) hlim hb
    · intro hsz h
      rw [read_control_ext_as_tail hcb h0 hby hlt]
      exact read_control_tail_ext3 (by omega) hsz (by omega) hlim hb
  · intro b h0 hby hge
    unfold read_control
    rw [hcb]
    simp only [DATA_TYPE_EXTENDED]
    rw [if_pos h0, hby]
    dsimp only
    rw [if_neg (by omega)]
  · exact ⟨by decide, by decide, by decide, by decide, by decide, by decide⟩

/-- C3 witness: the theorem applied at the buffer [189, 7] (size bits 29, one
extension byte 7): the decoded size is 7 + 29 = 36. -/
theorem c3_read_control_sizes_witness : read_control [189, 7] 0 = .ok ((5, 36), 2) := by
  have h := (c3_read_control_sizes [189, 7] 0 189 (by decide) (by norm_num [USIZE_LIMIT])
    (by decide)).2.1
  exact (h (by decide) (by decide) (by decide)).trans (by decide)

/-- C3 counterexample: on the buffer [29, 249, 5] the control byte has size
bits 29, so the claim prescribes reading one extension byte (5) and returning
size 5 + 29 = 34; instead the extended-type addition 249 + 7 overflows u8 and
the call aborts, returning no size at all. -/
theorem c3_read_control_sizes_cex :
    read_control [29, 249, 5] 0 = .panic ∧
      (∀ dt off2, read_control [29, 249, 5] 0 ≠ .ok ((dt, 34), off2)) := by
  refine ⟨by decide, ?_⟩
  intro dt off2 h
  rw [(by decide : read_control [29, 249, 5] 0 = RRes.panic)] at h
  exact RRes.noConfusion h


/-- A successful read_pointer advances the caller's cursor by exactly
pointer_size bytes. -/
theorem read_pointer_cursor {buf : List Nat} {offset size p off2 : Nat}
    (h : read_pointer buf offset size = .ok (p, off2)) :
    off2 = offset + (((size >>> 3) &&& 3) + 1) := by
  unfold read_pointer at h
  dsimp only at h
  cases hrb : read_bytes buf offset (((size >>> 3) &&& 3) + 1) with
  | ok w =>
    cases w with
    | mk bs o =>
      rw [hrb] at h
      dsimp only at h
      have hinv := (read_bytes_ok_inv hrb).2.1
      simp only [RRes.ok.injEq, Prod.mk.injEq] at h
      omega
  | err e =>
    rw [hrb] at h
    cases h
  | panic =>
    rw [hrb] at h
    cases h

theorem c5_read_str_cursor {buf : List Nat} {offset cb : Nat} {v : List Nat} {off2 : Nat}
    (hcb : buf[offset]? = some cb) (h5 : cb >>> 5 = 1) (hsz : cb % 32 < 29)
    (success : read_str buf offset = .ok (v, off2)) :
    off2 = offset + 1 + ((((cb % 32) >>> 3) &&& 3) + 1) := by
  have hrc := read_control_small hcb (by omega) hsz
  rw [h5] at hrc
  unfold read_str at success
  rw [hrc] at success
  dsimp only at success
  rw [if_neg (show ¬(1 : Nat) = DATA_TYPE_STRING from by decide),
    if_pos (show (1 : Nat) = DATA_TYPE_POINTER from rfl)] at success
  cases hrp : read_pointer buf (offset + 1) (cb % 32) with
  | err e =>
    rw [hrp] at success
    cases success
  | panic =>
    rw [hrp] at success
    cases success
  | ok pr =>
    cases pr with
    | mk ptr o2 =>
      rw [hrp] at success
      dsimp only at success
      have ho2 := read_pointer_cursor hrp
      cases hrc2 : read_control buf ptr with
      | err e =>
        rw [hrc2] at success
        cases success
      | panic =>
        rw [hrc2] at success
        cases success
      | ok w =>
        obtain ⟨⟨dt2, size2⟩, p2⟩ := w
        rw [hrc2] at success
        dsimp only at success
        by_cases hdt2 : dt2 = DATA_TYPE_STRING
        · rw [if_pos hdt2] at success
          cases hrb2 : read_bytes buf p2 size2 with
          | ok w2 =>
            cases w2 with
            | mk data o3 =>
              rw [hrb2] at success
              dsimp only at success
              simp only [RRes.ok.injEq, Prod.mk.injEq] at success
              omega
          | err e =>
            rw [hrb2] at success
            cases success
          | panic =>
            rw [hrb2] at success
            cases success
        · rw [if_neg hdt2] at success
          cases success


theorem c5_read_bool_cursor {buf : List Nat} {offset cb : Nat} {v : Bool} {off2 : Nat}
    (hcb : buf[offset]? = some cb) (h5 : cb >>> 5 = 1) (hsz : cb % 32 < 29)
    (success : read_bool buf offset = .ok (v, off2)) :
    off2 = offset + 1 + ((((cb % 32) >>> 3) &&& 3) + 1) := by
  have hrc := read_control_small hcb (by omega) hsz
  rw [h5] at hrc
  unfold read_bool at success
  rw [hrc] at success
  dsimp only at success
  rw [if_neg (show ¬(1 : Nat) = DATA_TYPE_BOOL from by decide),
    if_pos (show (1 : Nat) = DATA_TYPE_POINTER from rfl)] at success
  cases hrp : read_pointer buf (offset + 1) (cb % 32) with
  | err e => rw [hrp] at success; cases success
  | panic => rw [hrp] at success; cases success
  | ok pr =>
    cases pr with
    | mk ptr o2 =>
      rw [hrp] at success
      dsimp only at success
      have ho2 := read_pointer_cursor hrp
      cases hrc2 : read_control buf ptr with
      | err e => rw [hrc2] at success; cases success
      | panic => rw [hrc2] at success; cases success
      | ok w =>
        obtain ⟨⟨dt2, size2⟩, p2⟩ := w
        rw [hrc2] at success
        dsimp only at success
        by_cases hdt2 : dt2 = DATA_TYPE_BOOL
        · rw [if_pos hdt2] at success
          simp only [RRes.ok.injEq, Prod.mk.injEq] at success
          omega
        · rw [if_neg hdt2] at success
          cases success

theorem c5_read_f64_cursor {buf : List Nat} {offset cb : Nat} {v : Nat} {off2 : Nat}
    (hcb : buf[offset]? = some cb) (h5 : cb >>> 5 = 1) (hsz : cb % 32 < 29)
    (success : read_f64 buf offset = .ok (v, off2)) :
    off2 = offset + 1 + ((((cb % 32) >>> 3) &&& 3) + 1) := by
  have hrc := read_control_small hcb (by omega) hsz
  rw [h5] at hrc
  unfold read_f64 at success
  rw [hrc] at success
  dsimp only at success
  rw [if_neg (show ¬(1 : Nat) = DATA_TYPE_FLOAT64 from by decide),
    if_pos (show (1 : Nat) = DATA_TYPE_POINTER from rfl)] at success
  cases hrp : read_pointer buf (offset + 1) (cb % 32) with
  | err e => rw [hrp] at success; cases success
  | panic => rw [hrp] at success; cases success
  | ok pr =>
    cases pr with
    | mk ptr o2 =>
      rw [hrp] at success
      dsimp only at success
      have ho2 := read_pointer_cursor hrp
      cases hrc2 : read_control buf ptr with
      | err e => rw [hrc2] at success; cases success
      | panic => rw [hrc2] at success; cases success
      | ok w =>
        obtain ⟨⟨dt2, size2⟩, p2⟩ := w
        rw [hrc2] at success
        dsimp only at success
        by_cases hdt2 : dt2 = DATA_TYPE_FLOAT64
        · rw [if_pos hdt2] at success
          cases hin : read_bytes buf p2 size2 with
          | ok w2 =>
            cases w2 with
            | mk data o3 =>
              rw [hin] at success
              dsimp only at success
              simp only [RRes.ok.injEq, Prod.mk.injEq] at success
              omega
          | err e => rw [hin] at success; cases success
          | panic => rw [hin] at success; cases success
        · rw [if_neg hdt2] at success
          cases success

theorem c5_read_usize_cursor {buf : List Nat} {offset cb : Nat} {v : Nat} {off2 : Nat}
    (hcb : buf[offset]? = some cb) (h5 : cb >>> 5 = 1) (hsz : cb % 32 < 29)
    (success : read_usize buf offset = .ok (v, off2)) :
    off2 = offset + 1 + ((((cb % 32) >>> 3) &&& 3) + 1) := by
  have hrc := read_control_small hcb (by omega) hsz
  rw [h5] at hrc
  unfold read_usize at success
  rw [hrc] at success
  dsimp only at success
  rw [if_neg (show ¬is_uint_data_type 1 = true from by decide),
    if_pos (show (1 : Nat) = DATA_TYPE_POINTER from rfl)] at success
  cases hrp : read_pointer buf (offset + 1) (cb % 32) with
  | err e => rw [hrp] at success; cases success
  | panic => rw [hrp] at success; cases success
  | ok pr =>
    cases pr with
    | mk ptr o2 =>
      rw [hrp] at success
      dsimp only at success
      have ho2 := read_pointer_cursor hrp
      cases hrc2 : read_control buf ptr with
      | err e => rw [hrc2] at success; cases success
      | panic => rw [hrc2] at success; cases success
      | ok w =>
        obtain ⟨⟨dt2, size2⟩, p2⟩ := w
        rw [hrc2] at success
        dsimp only at success
        by_cases hdt2 : is_uint_data_type dt2 = true
        · rw [if_pos hdt2] at success
          cases hin : read_bytes buf p2 size2 with
          | ok w2 =>
            cases w2 with
            | mk data o3 =>
              rw [hin] at success
              dsimp only at success
              simp only [RRes.ok.injEq, Prod.mk.injEq] at success
              omega
          | err e => rw [hin] at success; cases success
          | panic => rw [hin] at success; cases success
        · rw [if_neg hdt2] at success
          cases success

theorem c5_read_str_array_cursor {buf : List Nat} {offset cb : Nat} {v : List (List Nat)} {off2 : Nat}
    (hcb : buf[offset]? = some cb) (h5 : cb >>> 5 = 1) (hsz : cb % 32 < 29)
    (success : read_str_array buf offset = .ok (v, off2)) :
    off2 = offset + 1 + ((((cb % 32) >>> 3) &&& 3) + 1) := by
  have hrc := read_control_small hcb (by omega) hsz
  rw [h5] at hrc
  unfold read_str_array at success
  rw [hrc] at success
  dsimp only at success
  rw [if_neg (show ¬(1 : Nat) = DATA_TYPE_SLICE from by decide),
    if_pos (show (1 : Nat) = DATA_TYPE_POINTER from rfl)] at success
  cases hrp : read_pointer buf (offset + 1) (cb % 32) with
  | err e => rw [hrp] at success; cases success
  | panic => rw [hrp] at success; cases success
  | ok pr =>
    cases pr with
    | mk ptr o2 =>
      rw [hrp] at success
      dsimp only at success
      have ho2 := read_pointer_cursor hrp
      cases hrc2 : read_control buf ptr with
      | err e => rw [hrc2] at success; cases success
      | panic => rw [hrc2] at success; cases success
      | ok w =>
        obtain ⟨⟨dt2, size2⟩, p2⟩ := w
        rw [hrc2] at success
        dsimp only at success
        by_cases hdt2 : dt2 = DATA_TYPE_SLICE
        · rw [if_pos hdt2] at success
          cases hin : read_str_loop buf p2 size2 [] with
          | ok w2 =>
            cases w2 with
            | mk data o3 =>
              rw [hin] at success
              dsimp only at success
              simp only [RRes.ok.injEq, Prod.mk.injEq] at success
              omega
          | err e => rw [hin] at success; cases success
          | panic => rw [hin] at success; cases success
        · rw [if_neg hdt2] at success
          cases success

theorem c5_read_map_cursor {buf : List Nat} {offset cb : Nat} {v : List (List Nat × List Nat)} {off2 : Nat}
    (hcb : buf[offset]? = some cb) (h5 : cb >>> 5 = 1) (hsz : cb % 32 < 29)
    (success : read_map buf offset = .ok (v, off2)) :
    off2 = offset + 1 + ((((cb % 32) >>> 3) &&& 3) + 1) := by
  have hrc := read_control_small hcb (by omega) hsz
  rw [h5] at hrc
  unfold read_map at success
  rw [hrc] at success
  dsimp only at success
  rw [if_neg (show ¬(1 : Nat) = DATA_TYPE_MAP from by decide),
    if_pos (show (1 : Nat) = DATA_TYPE_POINTER from rfl)] at success
  cases hrp : read_pointer buf (offset + 1) (cb % 32) with
  | err e => rw [hrp] at success; cases success
  | panic => rw [hrp] at success; cases success
  | ok pr =>
    cases pr with
    | mk ptr o2 =>
      rw [hrp] at success
      dsimp only at success
      have ho2 := read_pointer_cursor hrp
      cases hrc2 : read_control buf ptr with
      | err e => rw [hrc2] at success; cases success
      | panic => rw [hrc2] at success; cases success
      | ok w =>
        obtain ⟨⟨dt2, size2⟩, p2⟩ := w
        rw [hrc2] at success
        dsimp only at success
        by_cases hdt2 : dt2 = DATA_TYPE_MAP
        · rw [if_pos hdt2] at success
          cases hin : read_map_loop buf p2 size2 [] with
          | ok w2 =>
            cases w2 with
            | mk data o3 =>
              rw [hin] at success
              dsimp only at success
              simp only [RRes.ok.injEq, Prod.mk.injEq] at success
              omega
          | err e => rw [hin] at success; cases success
          | panic => rw [hin] at success; cases success
        · rw [if_neg hdt2] at success
          cases success

theorem c5_decode_default_cursor {α : Type} {dws : List Nat → Nat → Nat → RRes (α × Nat)}
    {buf : List Nat} {offset cb : Nat} {v : α} {off2 : Nat}
    (hcb : buf[offset]? = some cb) (h5 : cb >>> 5 = 1) (hsz : cb % 32 < 29)
    (success : decode_default dws buf offset = .ok (v, off2)) :
    off2 = offset + 1 + ((((cb % 32) >>> 3) &&& 3) + 1) := by
  have hrc := read_control_small hcb (by omega) hsz
  rw [h5] at hrc
  unfold decode_default at success
  rw [hrc] at success
  dsimp only at success
  rw [if_neg (show ¬(1 : Nat) = DATA_TYPE_MAP from by decide),
    if_pos (show (1 : Nat) = DATA_TYPE_POINTER from rfl)] at success
  cases hrp : read_pointer buf (offset + 1) (cb % 32) with
  | err e => rw [hrp] at success; cases success
  | panic => rw [hrp] at success; cases success
  | ok pr =>
    cases pr with
    | mk ptr o2 =>
      rw [hrp] at success
      dsimp only at success
      have ho2 := read_pointer_cursor hrp
      cases hrc2 : read_control buf ptr with
      | err e => rw [hrc2] at success; cases success
      | panic => rw [hrc2] at success; cases success
      | ok w =>
        obtain ⟨⟨dt2, size2⟩, p2⟩ := w
        rw [hrc2] at success
        dsimp only at success
        by_cases hdt2 : dt2 = DATA_TYPE_MAP
        · rw [if_pos hdt2] at success
          cases hin : dws buf p2 size2 with
          | ok w2 =>
            cases w2 with
            | mk data o3 =>
              rw [hin] at success
              dsimp only at success
              simp only [RRes.ok.injEq, Prod.mk.injEq] at success
              omega
          | err e => rw [hin] at success; cases success
          | panic => rw [hin] at success; cases success
        · rw [if_neg hdt2] at success
          cases success

/-- C5 (amended): when a decoder operation reads a value through a POINTER
whose control byte carries a 5-bit size field below 29 (every size field of 29
or more additionally makes read_control consume size - 28 extension bytes
before the pointer bytes), the caller's cursor after a successful call sits
exactly 1 + pointer_size bytes past the POINTER's control byte, regardless of
the size or kind of the pointee, which is read through a discarded local
cursor. This holds for read_str, read_bool, read_f64, read_usize (read_uint),
read_str_array, read_map and the default Decoder::decode. -/
theorem c5_pointer_cursor {α : Type} (dws : List Nat → Nat → Nat → RRes (α × Nat))
    (buf : List Nat) (offset cb : Nat)
    (hcb : buf[offset]? = some cb) (h5 : cb >>> 5 = 1) (hsz : cb % 32 < 29) :
    (∀ v off2, read_str buf offset = .ok (v, off2) →
      off2 = offset + 1 + ((((cb % 32) >>> 3) &&& 3) + 1)) ∧
    (∀ v off2, read_bool buf offset = .ok (v, off2) →
      off2 = offset + 1 + ((((cb % 32) >>> 3) &&& 3) + 1)) ∧
    (∀ v off2, read_f64 buf offset = .ok (v, off2) →
      off2 = offset + 1 + ((((cb % 32) >>> 3) &&& 3) + 1)) ∧
    (∀ v off2, read_usize buf offset = .ok (v, off2) →
      off2 = offset + 1 + ((((cb % 32) >>> 3) &&& 3) + 1)) ∧
    (∀ v off2, read_str_array buf offset = .ok (v, off2) →
      off2 = offset + 1 + ((((cb % 32) >>> 3) &&& 3) + 1)) ∧
    (∀ v off2, read_map buf offset = .ok (v, off2) →
      off2 = offset + 1 + ((((cb % 32) >>> 3) &&& 3) + 1)) ∧
    (∀ v off2, decode_default dws buf offset = .ok (v, off2) →
      off2 = offset + 1 + ((((cb % 32) >>> 3) &&& 3) + 1)) :=
  ⟨fun _ _ h => c5_read_str_cursor hcb h5 hsz h,
   fun _ _ h => c5_read_bool_cursor hcb h5 hsz h,
   fun _ _ h => c5_read_f64_cursor hcb h5 hsz h,
   fun _ _ h => c5_read_usize_cursor hcb h5 hsz h,
   fun _ _ h => c5_read_str_array_cursor hcb h5 hsz h,
   fun _ _ h => c5_read_map_cursor hcb h5 hsz h,
   fun _ _ h => c5_decode_default_cursor hcb h5 hsz h⟩

/-- C5 witness: on the buffer [32, 2, 66, 97, 98] the control byte at 0 is a
1-byte POINTER to the 2-byte string at offset 2; read_str succeeds and leaves
the cursor at 2 = 0 + 1 + pointer_size. -/
theorem c5_pointer_cursor_witness :
    read_str [32, 2, 66, 97, 98] 0 = .ok ([97, 98], 2) ∧
      (2 : Nat) = 0 + 1 + (((((32 : Nat) % 32) >>> 3) &&& 3) + 1) :=
  ⟨by decide,
    (c5_pointer_cursor (fun _ o _ => .ok ((0 : Nat), o)) [32, 2, 66, 97, 98] 0 32 (by decide)
      (by decide) (by decide)).1 [97, 98] 2 (by decide)⟩

/-- C5 counterexample: the control byte 61 is a POINTER (type 1) whose size
field is 29, so pointer_size per the claim's formula is ((29 >> 3) & 3) + 1 =
4 and the claimed advance is 1 + 4 = 5; but read_control first consumes one
size-extension byte, and after the successful read through the pointer the
cursor stands at 6. -/
theorem c5_pointer_cursor_cex :
    read_str [61, 0, 0, 0, 0, 8, 0, 0, 66, 97, 98] 0 = .ok ([97, 98], 6) ∧
      (61 : Nat) >>> 5 = 1 ∧ (61 : Nat) % 32 = 29 ∧
      ((((61 : Nat) % 32) >>> 3) &&& 3) + 1 = 4 ∧ (6 : Nat) ≠ 0 + 1 + 4 :=
  ⟨by decide, by decide, by decide, by decide, by decide⟩


/-- Concrete reader for C2: a single 24-bit node (left record 33, node_count
1), the 16-byte separator, a 2-byte data section, the metadata marker ending
at byte 38, and one trailing metadata byte 224 (an empty MAP). Its layout
satisfies every validation from_bytes performs. -/
def readerA : Reader :=
  { data := [0, 0, 33, 0, 0, 0] ++ List.replicate 16 0 ++ [0, 0] ++ METADATA_START_MARKER ++
      [224],
    search_tree_size := 6, record_size := 24, node_count := 1, node_offset_multi := 6,
    ip_v4_start := 0 }

/-- C2 (amended): when the tree walk yields a record value p at least
node_count + 16, lookup returns CorruptSearchTree if and only if the computed
offset p - node_count - 16 is at least the length of the WHOLE backing buffer
(not the length of the data section, as the claim states); for smaller
offsets it decodes at that offset of the slice starting at
search_tree_size + 16 — a slice that runs to the end of the file, past the
data section and into the metadata region. -/
theorem c2_lookup_bounds {α : Type} (dec : List Nat → Nat → RRes (α × Nat))
    (r : Reader) (ip : List Nat) (p : Nat)
    (hdec : ∀ b o, dec b o ≠ .err .CorruptSearchTree)
    (hfind : find_address_in_tree r ip = .ok p)
    (hp : r.node_count + 16 ≤ p)
    (hslice : r.search_tree_size + 16 ≤ r.data.length) :
    (lookup dec r ip = .err .CorruptSearchTree ↔ r.data.length ≤ p - r.node_count - 16) ∧
    (p - r.node_count - 16 < r.data.length →
      lookup dec r ip =
        discard_offset (dec (r.data.drop (r.search_tree_size + 16)) (p - r.node_count - 16))) := by
  have hlk : lookup dec r ip =
      (if r.data.length ≤ p - r.node_count - 16 then .err .CorruptSearchTree
       else discard_offset (dec (r.data.drop (r.search_tree_size + 16))
        (p - r.node_count - 16))) := by
    unfold lookup
    rw [hfind]
    dsimp only
    rw [if_neg (by omega)]
    unfold checked_sub
    simp only [DATA_SECTION_SEPARATOR_SIZE]
    rw [if_pos (by omega : r.node_count ≤ p)]
    dsimp only
    rw [if_pos (by omega : 16 ≤ p - r.node_count)]
    dsimp only
    by_cases hb : r.data.length ≤ p - r.node_count - 16
    · rw [if_pos hb, if_pos hb]
    · rw [if_neg hb, if_neg hb, if_neg (by omega)]
  constructor
  · rw [hlk]
    by_cases hb : r.data.length ≤ p - r.node_count - 16
    · rw [if_pos hb]
      exact iff_of_true rfl hb
    · rw [if_neg hb]
      refine iff_of_false ?_ hb
      cases hdd : dec (r.data.drop (r.search_tree_size + 16)) (p - r.node_count - 16) with
      | ok w =>
        cases w with
        | mk a b => simp [discard_offset]
      | err e =>
        simp only [discard_offset]
        intro hcon
        injection hcon with he
        exact hdec _ _ (by rw [hdd, he])
      | panic => simp [discard_offset]
  · intro hlt
    rw [hlk, if_neg (by omega)]

/-- C2 witness: the theorem applied to readerA, the address 0.0.0.0 (walk
result 33, offset 16 inside the 39-byte buffer) and a trivial decoder. -/
theorem c2_lookup_bounds_witness :
    (lookup (fun (_ : List Nat) (o : Nat) => (.ok (0, o) : RRes (Nat × Nat))) readerA
        [0, 0, 0, 0] = .err .CorruptSearchTree ↔
      readerA.data.length ≤ 33 - readerA.node_count - 16) ∧
    (33 - readerA.node_count - 16 < readerA.data.length →
      lookup (fun (_ : List Nat) (o : Nat) => (.ok (0, o) : RRes (Nat × Nat))) readerA
          [0, 0, 0, 0] =
        discard_offset ((fun (_ : List Nat) (o : Nat) => (.ok (0, o) : RRes (Nat × Nat)))
          (readerA.data.drop (readerA.search_tree_size + 16))
          (33 - readerA.node_count - 16))) :=
  c2_lookup_bounds (fun _ o => .ok (0, o)) readerA [0, 0, 0, 0] 33
    (fun _ _ h => RRes.noConfusion h) (by decide) (by decide) (by decide)

/-- C2 counterexample: in readerA the metadata marker ends at byte 38, so the
data section (the region between search_tree_size + 16 = 22 and the metadata
start) has length 16; the walk of 0.0.0.0 yields pointer 33 whose offset
33 - 1 - 16 = 16 is outside the data section, so the claim prescribes
CorruptSearchTree — but lookup compares the offset against the whole 39-byte
buffer and instead decodes the empty-MAP byte that lies inside the metadata
region. -/
theorem c2_lookup_bounds_cex :
    find_metadata_start readerA.data = .ok 38 ∧
      readerA.search_tree_size + 16 = 22 ∧
      find_address_in_tree readerA [0, 0, 0, 0] = .ok 33 ∧
      ((38 : Nat) - 22 ≤ 33 - readerA.node_count - 16) ∧
      lookup AnonymousIp.decode readerA [0, 0, 0, 0] =
        .ok { is_anonymous := none, is_anonymous_vpn := none, is_hosting_provider := none,
              is_public_proxy := none, is_residential_proxy := none,
              is_tor_exit_node := none } :=
  ⟨by decide, by decide, by decide, by decide, by decide⟩


theorem foldl_congr_mem {α β : Type} (l : List β) (f g : α → β → α) (init : α)
    (h : ∀ x ∈ l, ∀ a, f a x = g a x) : l.foldl f init = l.foldl g init := by
  induction l generalizing init with
  | nil => rfl
  | cons x xs ih =>
    simp only [List.foldl_cons]
    rw [h x (by simp)]
    exact ih _ (fun y hy a => h y (by simp [hy]) a)

/-- The first 96 bits of the IPv4-compatible address ::a.b.c.d are all 0. -/
theorem address_bit_prefix_zero (v4 : List Nat) (i : Nat) (hi : i < 96) :
    address_bit (List.replicate 12 0 ++ v4) i = 0 := by
  unfold address_bit
  have h3 : i >>> 3 < 12 := by
    rw [Nat.shiftRight_eq_div_pow]
    omega
  rw [List.getD_append _ _ _ _ (by simpa using h3)]
  rw [List.getD_eq_getElem?_getD, List.getElem?_replicate_of_lt h3]
  simp

/-- Bit 96 + j of ::a.b.c.d is bit j of a.b.c.d. -/
theorem address_bit_shift (v4 : List Nat) (j : Nat) :
    address_bit (List.replicate 12 0 ++ v4) (96 + j) = address_bit v4 j := by
  unfold address_bit
  have hs : (96 + j) >>> 3 = 12 + j >>> 3 := by
    rw [Nat.shiftRight_eq_div_pow, Nat.shiftRight_eq_div_pow]
    omega
  rw [hs, List.getD_append_right _ _ _ _ (by simp)]
  simp only [List.length_replicate]
  rw [show 12 + j >>> 3 - 12 = j >>> 3 by omega]
  rw [show (96 + j) % 8 = j % 8 by omega]

/-- The walk of a 4-byte address starting at the precomputed ip_v4_start stops
at the same node as the walk of the 16-byte address ::a.b.c.d (96 zero bits,
then the IPv4 bits) from the root. -/
theorem walk_node_v4_eq (r : Reader) (v4 : List Nat) (h4 : v4.length = 4)
    (hstart : r.ip_v4_start = compute_ip_v4_start r) :
    walk_node r v4 = walk_node r (List.replicate 12 0 ++ v4) := by
  unfold walk_node
  have hlen6 : (List.replicate 12 0 ++ v4).length = 16 := by simp [h4]
  rw [h4, hlen6]
  dsimp only
  norm_num
  rw [show (128 : Nat) = 96 + 32 from rfl, List.range_add, List.foldl_append, List.foldl_map]
  have h1 : (List.range 96).foldl (step_node r (List.replicate 12 0 ++ v4)) 0 =
      compute_ip_v4_start r := by
    unfold compute_ip_v4_start
    apply foldl_congr_mem
    intro i hi node
    rw [List.mem_range] at hi
    unfold step_node
    rw [address_bit_prefix_zero v4 i hi]
    by_cases hn : r.node_count ≤ node
    · rw [if_pos hn, if_neg (by omega)]
    · rw [if_neg hn]
      rw [if_pos (show (0 : Nat) = 0 from rfl)]
      rw [if_pos (show node < r.node_count by omega)]
  rw [h1, ← hstart]
  apply foldl_congr_mem
  intro j hj node
  rw [List.mem_range] at hj
  unfold step_node
  rw [address_bit_shift v4 j]

/-- C6 (amended): for a reader whose ip_v4_start is the from_bytes descent
(96 left children from the root, stopping at a leaf), looking up a 4-byte
address gives the same result as looking up the 16-byte address that prefixes
it with 96 ZERO bits, i.e. the prefix ::/96 — not the claim's ::ffff:0:0/96,
whose bits 80..95 are ones and which the left-only descent never follows. The
equality holds for every record decoder and needs no existence assumption. -/
theorem c6_ipv4_start_equiv {α : Type} (dec : List Nat → Nat → RRes (α × Nat))
    (r : Reader) (v4 : List Nat) (h4 : v4.length = 4)
    (hstart : r.ip_v4_start = compute_ip_v4_start r) :
    lookup dec r v4 = lookup dec r (List.replicate 12 0 ++ v4) := by
  have hw := walk_node_v4_eq r v4 h4 hstart
  unfold lookup find_address_in_tree
  rw [hw]

/-- Concrete reader for the C6 witness: same single-node tree as readerB but
with ip_v4_start set to the from_bytes descent value 5. -/
def readerD : Reader :=
  { data := [0, 0, 5, 0, 0, 0], search_tree_size := 6, record_size := 24, node_count := 1,
    node_offset_multi := 6, ip_v4_start := 5 }

/-- C6 witness: the theorem applied to readerD and 0.0.0.0. -/
theorem c6_ipv4_start_equiv_witness :
    lookup AnonymousIp.decode readerD [0, 0, 0, 0] =
      lookup AnonymousIp.decode readerD (List.replicate 12 0 ++ [0, 0, 0, 0]) :=
  c6_ipv4_start_equiv AnonymousIp.decode readerD [0, 0, 0, 0] (by decide) (by decide)

/-- Concrete reader refuting C6 as stated: an 83-node, 24-bit tree that is a
left chain to depth 80 and branches at depth 80: the all-zeros path reaches
data pointer 99 (an empty MAP), while the path of ::ffff:0:0/96 — whose bits
80..95 are ones — reaches data pointer 100 (a MAP with is_anonymous = true).
Its ip_v4_start equals the from_bytes descent, its marker ends at 545, and
both addresses resolve to records. -/
def readerC : Reader :=
  { data := ((List.range 80).map (fun i => [0, 0, i + 1, 0, 0, 99])).flatten ++
      [0, 0, 81, 0, 0, 82] ++ [0, 0, 99, 0, 0, 99] ++ [0, 0, 100, 0, 0, 100] ++
      List.replicate 16 0 ++ [224] ++
      [225, 76, 105, 115, 95, 97, 110, 111, 110, 121, 109, 111, 117, 115, 1, 7] ++
      METADATA_START_MARKER ++ [224],
    search_tree_size := 498, record_size := 24, node_count := 83, node_offset_multi := 6,
    ip_v4_start := 99 }

/-- C6 counterexample: on readerC the IPv4 lookup of 0.0.0.0 (which uses
ip_v4_start, the all-zeros descent) finds the empty-MAP record, while walking
the tree from the root over the 96 bits of ::ffff:0:0/96 followed by the 32
IPv4 bits — i.e. looking up ::ffff:0.0.0.0 — finds a different record; both
records exist, yet the results differ, refuting the claimed equivalence with
the ::ffff:0:0/96 prefix. -/
theorem c6_ipv4_start_cex :
    readerC.ip_v4_start = compute_ip_v4_start readerC ∧
      lookup AnonymousIp.decode readerC [0, 0, 0, 0] =
        .ok { is_anonymous := none, is_anonymous_vpn := none, is_hosting_provider := none,
              is_public_proxy := none, is_residential_proxy := none,
              is_tor_exit_node := none } ∧
      lookup AnonymousIp.decode readerC
          [0, 0, 0, 0, 0, 0, 0, 0, 0, 0, 255, 255, 0, 0, 0, 0] =
        .ok { is_anonymous := some true, is_anonymous_vpn := none,
              is_hosting_provider := none, is_public_proxy := none,
              is_residential_proxy := none, is_tor_exit_node := none } ∧
      ({ is_anonymous := none, is_anonymous_vpn := none, is_hosting_provider := none,
         is_public_proxy := none, is_residential_proxy := none,
         is_tor_exit_node := none } : AnonymousIp) ≠
        { is_anonymous := some true, is_anonymous_vpn := none, is_hosting_provider := none,
          is_public_proxy := none, is_residential_proxy := none,
          is_tor_exit_node := none } :=
  ⟨by decide, by decide, by decide, by decide⟩

end MMDB
